import Mathlib

/-!
Verification development for the Pool Patrol repository.

Pool Patrol audits vanpool enrollment records for location/shift mismatches and
drives each flagged case through an investigation workflow with human
checkpoints.  This file gives a shallow embedding of

* the case-orchestration engine (verdict synthesis, the case lifecycle state
  machine, the retry/escalation policy, and the human-approval gate), modelled
  from the specification and the design documents, because the Python backend
  implementing them is not part of the tree;
* the HITL checkpointing mechanism described in the agent design document
  (an in-process `InMemorySaver` keyed by thread id);
* the database layer that is present in the tree: the Prisma/SQL schema with
  its unique indexes and foreign keys, the `addMessage` server action, the
  `deleteVanpool` server action, and the vanpool detail page's open-case
  filter,

and proves or refutes the frozen claims about them.
-/

namespace PoolPatrol

/-! ## Specialist verification results and verdict synthesis -/

/-- Verdict of a verification specialist (`pass` or `fail`), from the
specialist output contract in the agent design document. -/
inductive Verdict where
  | pass
  | fail
deriving DecidableEq, Repr

/-- A specialist verification result: verdict, confidence score and
human-readable reasoning (evidence items are opaque to the synthesis rule and
are kept as a list of reason strings). -/
structure VerificationResult where
  verdict : Verdict
  confidence : Nat
  reasoning : String
deriving DecidableEq, Repr

/-- Modelled from the spec: the Case Manager's synthesis step.  The Python
backend implementing the Case Manager is absent from the tree; the spec and
`docs/AGENT_DESIGN.md` ("Synthesize: if ANY FAIL → Outreach") state that a
case's synthesized verdict is `fail` iff any requested specialist returns
`fail`, with no weighting. -/
def synthesizeVerdict (results : List VerificationResult) : Verdict :=
  if results.any (fun r => r.verdict == Verdict.fail) then Verdict.fail else Verdict.pass

theorem any_of_perm {α : Type} {l l' : List α} (h : l.Perm l') (p : α → Bool) :
    l.any p = l'.any p := by
  induction h with
  | nil => rfl
  | cons x _ ih => simp [List.any_cons, ih]
  | swap x y l => simp [List.any_cons, Bool.or_left_comm]
  | trans _ _ ih₁ ih₂ => exact ih₁.trans ih₂

theorem any_map_verdict (rs : List VerificationResult) (p : Verdict → Bool) :
    (rs.map (fun r => r.verdict)).any p = rs.any (fun r => p r.verdict) := by
  induction rs with
  | nil => rfl
  | cons r rs ih => simp [List.any_cons, ih]

theorem synthesizeVerdict_eq_fail_iff (rs : List VerificationResult) :
    synthesizeVerdict rs = Verdict.fail ↔ ∃ r ∈ rs, r.verdict = Verdict.fail := by
  unfold synthesizeVerdict
  split
  next h =>
    simp only [List.any_eq_true, beq_iff_eq] at h
    exact ⟨fun _ => h, fun _ => rfl⟩
  next h =>
    simp only [List.any_eq_true, beq_iff_eq] at h
    push_neg at h
    constructor
    · intro hpf
      cases hpf
    · intro hex
      obtain ⟨r, hr, hrv⟩ := hex
      exact absurd hrv (h r hr)

/-- C1: for every set of specialist verification results of a case (any number
1..N of specialists, in any order), the synthesized case verdict is `fail` iff
at least one specialist result is `fail`; the synthesis depends only on the
multiset of verdicts, so neither the order of the results nor their confidence
scores (no weighting) influence it. -/
theorem c1_synthesis_fail_iff_any_fail (rs rs' : List VerificationResult)
    (h : (rs.map (fun r => r.verdict)).Perm (rs'.map (fun r => r.verdict))) :
    (synthesizeVerdict rs = Verdict.fail ↔ ∃ r ∈ rs, r.verdict = Verdict.fail)
    ∧ synthesizeVerdict rs = synthesizeVerdict rs' := by
  refine ⟨synthesizeVerdict_eq_fail_iff rs, ?_⟩
  have hany : rs.any (fun r => r.verdict == Verdict.fail)
      = rs'.any (fun r => r.verdict == Verdict.fail) := by
    rw [← any_map_verdict rs (fun v => v == Verdict.fail),
      ← any_map_verdict rs' (fun v => v == Verdict.fail), any_of_perm h]
  unfold synthesizeVerdict
  rw [hany]

/-- Witness for C1 at a concrete input: two specialists, one failing, listed in
the two possible orders. -/
theorem c1_synthesis_fail_iff_any_fail_witness :
    (synthesizeVerdict
        [⟨Verdict.pass, 5, "ok"⟩, ⟨Verdict.fail, 4, "mismatch"⟩] = Verdict.fail
      ↔ ∃ r ∈ [(⟨Verdict.pass, 5, "ok"⟩ : VerificationResult),
               ⟨Verdict.fail, 4, "mismatch"⟩], r.verdict = Verdict.fail)
    ∧ synthesizeVerdict
        [⟨Verdict.pass, 5, "ok"⟩, ⟨Verdict.fail, 4, "mismatch"⟩]
      = synthesizeVerdict
        [⟨Verdict.fail, 1, "mismatch seen"⟩, ⟨Verdict.pass, 2, "ok"⟩] :=
  c1_synthesis_fail_iff_any_fail
    [⟨Verdict.pass, 5, "ok"⟩, ⟨Verdict.fail, 4, "mismatch"⟩]
    [⟨Verdict.fail, 1, "mismatch seen"⟩, ⟨Verdict.pass, 2, "ok"⟩]
    (by decide)

/-! ## Case lifecycle engine

The Case Manager backend (Python/LangGraph) is not part of the tree; only its
design documents are.  The state machine below is modelled from the spec
(§4.1, §4.4, §4.5) and `docs/AGENT_DESIGN.md` (case lifecycle diagram, reply
buckets, loop termination, HITL decision points). -/

/-- Lifecycle states of a case, from the spec's Case Lifecycle Controller. -/
inductive CaseState where
  | created
  | verifying
  | closedVerified
  | outreachPending
  | awaitingReply
  | reAuditing
  | hitlReplyReview
  | preCancel
  | hitlCancelReview
  | closedResolved
  | closedCancelled
deriving DecidableEq, Repr

/-- Status of a human approval request (`pending`, `approved`, `rejected`,
`edited`), from the spec's `ApprovalRequest` data model. -/
inductive ApprovalStatus where
  | pending
  | approved
  | rejected
  | edited
deriving DecidableEq, Repr

/-- Target action of a human approval request. -/
inductive ApprovalAction where
  | cancelMembership
  | sendDisputedReply
deriving DecidableEq, Repr

/-- A human approval request: target action plus resolution status. -/
structure ApprovalRequest where
  action : ApprovalAction
  status : ApprovalStatus
deriving DecidableEq, Repr

/-- Classification buckets for inbound replies, from the reply-bucket table in
the design documents (`data_updated`, `valid_explanation`, `unknown`, plus the
dispute/escalation bucket). -/
inductive ReplyBucket where
  | dataUpdated
  | validExplanation
  | unknown
  | dispute
deriving DecidableEq, Repr

/-- Modelled from the spec: default maximum number of re-audit attempts
("Loop Termination: Max 3 re-audit attempts"). -/
def maxReAuditAttempts : Nat := 3

/-- Modelled from the spec: confidence threshold below or at which a reply
classification routes to human review ("confidence <= 2 or bucket =
unknown"). -/
def hitlConfidenceThreshold : Nat := 2

/-- Modelled from the spec: default reply-timeout window in days. -/
def defaultTimeoutWindowDays : Nat := 7

/-- Outcome of the retry/escalation policy. -/
inductive PolicyDecision where
  | retry
  | wait
  | escalate
deriving DecidableEq, Repr

/-- Modelled from the spec: the Retry/Escalation Policy (§4.5), a pure function
of the retry counter and the elapsed time since the outreach cycle started.
On reaching the maximum number of attempts it always escalates; otherwise it
waits until the timeout window has elapsed and then retries. -/
def retryEscalationPolicy (retryCount elapsedDays timeoutWindowDays : Nat) : PolicyDecision :=
  if maxReAuditAttempts ≤ retryCount then PolicyDecision.escalate
  else if elapsedDays < timeoutWindowDays then PolicyDecision.wait
  else PolicyDecision.retry

/-- Engine-side view of one case: lifecycle state, re-audit retry counter,
archive of human approval requests, and whether the membership cancellation
has been executed. -/
structure EngineCase where
  state : CaseState
  retryCount : Nat
  approvals : List ApprovalRequest
  cancelled : Bool
deriving DecidableEq, Repr

/-- A freshly created case. -/
def initCase : EngineCase :=
  { state := CaseState.created, retryCount := 0, approvals := [], cancelled := false }

/-- Events consumed by the Case Lifecycle Controller. -/
inductive Event where
  | startVerification
  | verificationResults (results : List VerificationResult)
  | outreachSent
  | inboundReply (bucket : ReplyBucket) (confidence : Nat)
  | timerExpired
  | reAuditResults (results : List VerificationResult)
  | humanLabel (bucket : ReplyBucket)
  | suspendForCancel
  | humanDecision (approve : Bool)
deriving DecidableEq, Repr

/-- Entering the re-audit state increments the retry counter (one counted
re-audit attempt per `ReAuditing` entry). -/
def enterReAudit (c : EngineCase) : EngineCase :=
  { c with state := CaseState.reAuditing, retryCount := c.retryCount + 1 }

/-- Modelled from the spec: routing of a classified reply.  `data_updated`
with sufficient confidence triggers a re-audit; `unknown`, dispute, a valid
explanation, or low confidence route to human reply review. -/
def routeReply (c : EngineCase) (bucket : ReplyBucket) (confidence : Nat) : EngineCase :=
  if confidence ≤ hitlConfidenceThreshold then
    { c with state := CaseState.hitlReplyReview }
  else
    match bucket with
    | ReplyBucket.dataUpdated => enterReAudit c
    | ReplyBucket.validExplanation => { c with state := CaseState.hitlReplyReview }
    | ReplyBucket.unknown => { c with state := CaseState.hitlReplyReview }
    | ReplyBucket.dispute => { c with state := CaseState.hitlReplyReview }

/-- True when the case has an unresolved approval request. -/
def hasPendingApproval (c : EngineCase) : Bool :=
  c.approvals.any (fun a => a.status == ApprovalStatus.pending)

/-- True when the case carries a resolved approval request for membership
cancellation whose decision is approve. -/
def hasApprovedCancel (c : EngineCase) : Bool :=
  c.approvals.any
    (fun a => a.action == ApprovalAction.cancelMembership && a.status == ApprovalStatus.approved)

/-- Resolving the pending request marks it with the human decision. -/
def resolvePending (l : List ApprovalRequest) (s : ApprovalStatus) : List ApprovalRequest :=
  l.map (fun a => if a.status == ApprovalStatus.pending then { a with status := s } else a)

/-- Modelled from the spec: the irreversible cancel-membership action, gated
by the Human Approval Gate (`cancel_membership` is always intercepted by the
HITL middleware, and the cancel endpoint only acts on a case that passed the
pre-cancel review).  It executes only when the case carries a resolved
`approve` decision for cancellation; otherwise it does nothing and reports
failure. -/
def executeCancelMembership (c : EngineCase) : EngineCase × Bool :=
  if hasApprovedCancel c then
    ({ c with state := CaseState.closedCancelled, cancelled := true }, true)
  else
    (c, false)

/-- Modelled from the spec: one transition of the Case Lifecycle Controller
(§4.1).  Events that do not apply to the current state leave the case
unchanged. -/
def step (c : EngineCase) (e : Event) : EngineCase :=
  match c.state, e with
  | CaseState.created, Event.startVerification => { c with state := CaseState.verifying }
  | CaseState.verifying, Event.verificationResults rs =>
      if synthesizeVerdict rs == Verdict.pass then { c with state := CaseState.closedVerified }
      else { c with state := CaseState.outreachPending }
  | CaseState.outreachPending, Event.outreachSent => { c with state := CaseState.awaitingReply }
  | CaseState.awaitingReply, Event.inboundReply b conf => routeReply c b conf
  | CaseState.awaitingReply, Event.timerExpired => enterReAudit c
  | CaseState.reAuditing, Event.reAuditResults rs =>
      if synthesizeVerdict rs == Verdict.pass then { c with state := CaseState.closedResolved }
      else
        match retryEscalationPolicy c.retryCount defaultTimeoutWindowDays defaultTimeoutWindowDays with
        | PolicyDecision.escalate => { c with state := CaseState.preCancel }
        | _ => { c with state := CaseState.outreachPending }
  | CaseState.hitlReplyReview, Event.humanLabel b =>
      routeReply c b (hitlConfidenceThreshold + 1)
  | CaseState.preCancel, Event.suspendForCancel =>
      if hasPendingApproval c then c
      else
        { c with state := CaseState.hitlCancelReview,
                 approvals :=
                   { action := ApprovalAction.cancelMembership,
                     status := ApprovalStatus.pending } :: c.approvals }
  | CaseState.hitlCancelReview, Event.humanDecision d =>
      if d then
        (executeCancelMembership
          { c with approvals := resolvePending c.approvals ApprovalStatus.approved }).1
      else
        { c with state := CaseState.closedResolved,
                 approvals := resolvePending c.approvals ApprovalStatus.rejected }
  | _, _ => c

/-- Running the controller over a sequence of events. -/
def run (c : EngineCase) (es : List Event) : EngineCase :=
  es.foldl step c

/-- Retry-counter invariant: the number of counted re-audit attempts never
exceeds the maximum, and in every state from which a new re-audit attempt can
still start the counter is strictly below the maximum. -/
def RetryInv (c : EngineCase) : Prop :=
  c.retryCount ≤ maxReAuditAttempts ∧
  ((c.state = CaseState.created ∨ c.state = CaseState.verifying ∨
      c.state = CaseState.closedVerified ∨ c.state = CaseState.outreachPending ∨
      c.state = CaseState.awaitingReply ∨ c.state = CaseState.hitlReplyReview) →
    c.retryCount < maxReAuditAttempts)

theorem retryInv_step (c : EngineCase) (e : Event) (h : RetryInv c) : RetryInv (step c e) := by
  obtain ⟨st, n, apprs, cn⟩ := c
  obtain ⟨h1, h2⟩ := h
  unfold RetryInv at *
  simp only at h1 h2 ⊢
  cases st <;> cases e <;>
      simp_all [step, enterReAudit, routeReply, executeCancelMembership,
        retryEscalationPolicy, hitlConfidenceThreshold, maxReAuditAttempts,
        defaultTimeoutWindowDays] <;>
    (repeat' split) <;> (try simp_all) <;> omega

theorem retryInv_run (es : List Event) (c : EngineCase) (h : RetryInv c) :
    RetryInv (run c es) := by
  induction es generalizing c with
  | nil => exact h
  | cons e es ih => exact ih (step c e) (retryInv_step c e h)

theorem retryInv_init : RetryInv initCase := by
  constructor <;> simp [initCase, maxReAuditAttempts]

/-- C3: for every case (every event sequence from a fresh case), the re-audit
retry counter never exceeds the configured maximum of 3; once the counter has
reached the maximum, a failing re-audit transitions to the pre-cancel path and
never back to outreach; and the retry/escalation policy, a function of the
retry counter alone, returns `escalate` at or beyond the maximum regardless of
any classifier output or elapsed time. -/
theorem c3_retry_bound (es : List Event) (rs : List VerificationResult)
    (hfail : synthesizeVerdict rs = Verdict.fail) :
    (run initCase es).retryCount ≤ maxReAuditAttempts
    ∧ ((run initCase es).retryCount = maxReAuditAttempts →
        (run initCase es).state = CaseState.reAuditing →
        (step (run initCase es) (Event.reAuditResults rs)).state = CaseState.preCancel)
    ∧ (∀ n elapsed window, maxReAuditAttempts ≤ n →
        retryEscalationPolicy n elapsed window = PolicyDecision.escalate) := by
  have hinv := retryInv_run es initCase retryInv_init
  refine ⟨hinv.1, ?_, ?_⟩
  · intro hmax hst
    have hgen : ∀ c : EngineCase, c.state = CaseState.reAuditing →
        c.retryCount = maxReAuditAttempts →
        (step c (Event.reAuditResults rs)).state = CaseState.preCancel := by
      intro c hc1 hc2
      obtain ⟨st, n, apprs, cn⟩ := c
      simp only at hc1 hc2
      subst hc1
      subst hc2
      simp [step, hfail, retryEscalationPolicy, maxReAuditAttempts]
    exact hgen _ hst hmax
  · intro n elapsed window hn
    simp [retryEscalationPolicy, if_pos hn]

/-- Witness for C3: a concrete run in which the counter reaches the maximum of
3 (verification fails, then three timeout-driven re-audits each fail), followed
by a failing re-audit that escalates to pre-cancel. -/
theorem c3_retry_bound_witness :
    (run initCase
        [Event.startVerification,
         Event.verificationResults [⟨Verdict.fail, 4, "shift mismatch"⟩],
         Event.outreachSent, Event.timerExpired,
         Event.reAuditResults [⟨Verdict.fail, 4, "still failing"⟩],
         Event.outreachSent, Event.timerExpired,
         Event.reAuditResults [⟨Verdict.fail, 4, "still failing"⟩],
         Event.outreachSent, Event.timerExpired]).retryCount ≤ maxReAuditAttempts
    ∧ ((run initCase
        [Event.startVerification,
         Event.verificationResults [⟨Verdict.fail, 4, "shift mismatch"⟩],
         Event.outreachSent, Event.timerExpired,
         Event.reAuditResults [⟨Verdict.fail, 4, "still failing"⟩],
         Event.outreachSent, Event.timerExpired,
         Event.reAuditResults [⟨Verdict.fail, 4, "still failing"⟩],
         Event.outreachSent, Event.timerExpired]).retryCount = maxReAuditAttempts →
        (run initCase
        [Event.startVerification,
         Event.verificationResults [⟨Verdict.fail, 4, "shift mismatch"⟩],
         Event.outreachSent, Event.timerExpired,
         Event.reAuditResults [⟨Verdict.fail, 4, "still failing"⟩],
         Event.outreachSent, Event.timerExpired,
         Event.reAuditResults [⟨Verdict.fail, 4, "still failing"⟩],
         Event.outreachSent, Event.timerExpired]).state = CaseState.reAuditing →
        (step (run initCase
        [Event.startVerification,
         Event.verificationResults [⟨Verdict.fail, 4, "shift mismatch"⟩],
         Event.outreachSent, Event.timerExpired,
         Event.reAuditResults [⟨Verdict.fail, 4, "still failing"⟩],
         Event.outreachSent, Event.timerExpired,
         Event.reAuditResults [⟨Verdict.fail, 4, "still failing"⟩],
         Event.outreachSent, Event.timerExpired])
          (Event.reAuditResults [⟨Verdict.fail, 5, "final failure"⟩])).state
          = CaseState.preCancel)
    ∧ (∀ n elapsed window, maxReAuditAttempts ≤ n →
        retryEscalationPolicy n elapsed window = PolicyDecision.escalate) :=
  c3_retry_bound
    [Event.startVerification,
     Event.verificationResults [⟨Verdict.fail, 4, "shift mismatch"⟩],
     Event.outreachSent, Event.timerExpired,
     Event.reAuditResults [⟨Verdict.fail, 4, "still failing"⟩],
     Event.outreachSent, Event.timerExpired,
     Event.reAuditResults [⟨Verdict.fail, 4, "still failing"⟩],
     Event.outreachSent, Event.timerExpired]
    [⟨Verdict.fail, 5, "final failure"⟩] (by decide)

/-- Cancellation invariant: a case on which the cancel action has executed
carries a resolved approval request for membership cancellation with decision
approve. -/
def CancelInv (c : EngineCase) : Prop :=
  c.cancelled = true → hasApprovedCancel c = true

theorem hasApprovedCancel_resolvePending (apprs : List ApprovalRequest) (s : ApprovalStatus)
    (h : ∃ a ∈ apprs,
        a.action = ApprovalAction.cancelMembership ∧ a.status = ApprovalStatus.approved) :
    ∃ a ∈ resolvePending apprs s,
        a.action = ApprovalAction.cancelMembership ∧ a.status = ApprovalStatus.approved := by
  obtain ⟨a, ha, haction, hstatus⟩ := h
  refine ⟨a, ?_, haction, hstatus⟩
  unfold resolvePending
  have heq : (if a.status == ApprovalStatus.pending then { a with status := s } else a) = a := by
    rw [hstatus]
    simp
  rw [← heq]
  exact List.mem_map_of_mem _ ha

theorem cancelInv_step (c : EngineCase) (e : Event) (h : CancelInv c) : CancelInv (step c e) := by
  obtain ⟨st, n, apprs, cn⟩ := c
  unfold CancelInv at *
  unfold hasApprovedCancel at *
  simp only at h ⊢
  cases st <;> cases e <;>
      simp_all [step, enterReAudit, routeReply, executeCancelMembership, hasApprovedCancel,
        hasPendingApproval] <;>
    (repeat' split) <;>
    simp_all [hasApprovedCancel, hasPendingApproval] <;>
    intro hcn <;>
    exact hasApprovedCancel_resolvePending apprs _ (h hcn)

theorem cancelInv_run (es : List Event) (c : EngineCase) (h : CancelInv c) :
    CancelInv (run c es) := by
  induction es generalizing c with
  | nil => exact h
  | cons e es ih => exact ih (step c e) (cancelInv_step c e h)

/-- C2: a membership cancellation never executes without a resolved approval
request whose decision is approve: along every run of the controller from a
fresh case, once the cancel action has executed the case carries an approved
cancel-membership request; and invoking the cancel operation on any case that
does not carry such an approval (in particular one that has not passed the
pre-cancel human review) cancels nothing and leaves the case unchanged. -/
theorem c2_no_unapproved_cancellation (es : List Event) (c : EngineCase)
    (hnoapproval : hasApprovedCancel c = false) :
    ((run initCase es).cancelled = true → hasApprovedCancel (run initCase es) = true)
    ∧ executeCancelMembership c = (c, false) := by
  refine ⟨cancelInv_run es initCase (fun hfalse => by simp [initCase] at hfalse), ?_⟩
  unfold executeCancelMembership
  rw [hnoapproval]
  simp

/-- Witness for C2: the full approved-cancellation run (which does carry the
approval), and the cancel operation applied to a case sitting in pre-cancel
that has not passed human review: it cancels nothing. -/
theorem c2_no_unapproved_cancellation_witness :
    ((run initCase
        [Event.startVerification,
         Event.verificationResults [⟨Verdict.fail, 4, "location mismatch"⟩],
         Event.outreachSent, Event.timerExpired,
         Event.reAuditResults [⟨Verdict.fail, 4, "still failing"⟩]]).cancelled = true →
      hasApprovedCancel (run initCase
        [Event.startVerification,
         Event.verificationResults [⟨Verdict.fail, 4, "location mismatch"⟩],
         Event.outreachSent, Event.timerExpired,
         Event.reAuditResults [⟨Verdict.fail, 4, "still failing"⟩]]) = true)
    ∧ executeCancelMembership
        { state := CaseState.preCancel, retryCount := 3, approvals := [], cancelled := false }
      = ({ state := CaseState.preCancel, retryCount := 3, approvals := [], cancelled := false },
         false) :=
  c2_no_unapproved_cancellation
    [Event.startVerification,
     Event.verificationResults [⟨Verdict.fail, 4, "location mismatch"⟩],
     Event.outreachSent, Event.timerExpired,
     Event.reAuditResults [⟨Verdict.fail, 4, "still failing"⟩]]
    { state := CaseState.preCancel, retryCount := 3, approvals := [], cancelled := false }
    (by decide)

/-! ## HITL suspension and checkpointing

The agent design document in the tree describes how suspension works in the
implementation: the HITL middleware interrupts the protected tool call and the
agent state is saved via an `InMemorySaver` checkpointer keyed by `thread_id`;
the human decision later resumes from that checkpoint.  An `InMemorySaver`
holds its checkpoints in the Python process's heap, so the model below keeps
them in a process-memory component that a process restart resets. -/

/-- A saved HITL checkpoint: the case snapshot at suspension plus the pending
action awaiting approval. -/
structure Checkpoint where
  caseSnapshot : EngineCase
  pendingAction : ApprovalAction
deriving DecidableEq, Repr

/-- Modelled from the source design document: the agent process state.
`memCheckpoints` is the content of the `InMemorySaver` checkpointer, a map
from `thread_id` to checkpoint living in process memory. -/
structure AgentProcess where
  memCheckpoints : List (String × Checkpoint)
deriving DecidableEq, Repr

/-- A freshly started agent process has an empty checkpointer. -/
def initProcess : AgentProcess := { memCheckpoints := [] }

/-- Suspending for a human decision interrupts the tool call and saves the
agent state in the in-memory checkpointer keyed by thread id; the call returns
immediately (no thread is held). -/
def suspendHitl (p : AgentProcess) (threadId : String) (cp : Checkpoint) : AgentProcess :=
  { p with memCheckpoints := (threadId, cp) :: p.memCheckpoints }

/-- A process restart: the Python process's heap, and with it the
`InMemorySaver`'s contents, are gone; a fresh process starts with an empty
checkpointer. -/
def restartProcess (_p : AgentProcess) : AgentProcess := initProcess

/-- Delivering a human decision: resume looks the checkpoint up by thread id
and replays the decision into the suspended case; with no checkpoint for the
thread there is nothing to resume. -/
def resumeHitl (p : AgentProcess) (threadId : String) (approve : Bool) : Option EngineCase :=
  match p.memCheckpoints.lookup threadId with
  | some cp => some (step cp.caseSnapshot (Event.humanDecision approve))
  | none => none

/-- C5 as stated is false: a pending suspension does not survive a process
restart.  Concretely, suspend a case sitting in the pre-cancel review for
thread `THREAD-001`, restart the process, and the human decision can no longer
resume the case: the checkpoint was only in process memory. -/
theorem c5_suspension_lost_on_restart :
    resumeHitl
      (restartProcess
        (suspendHitl initProcess "THREAD-001"
          { caseSnapshot :=
              { state := CaseState.hitlCancelReview, retryCount := 3,
                approvals := [{ action := ApprovalAction.cancelMembership,
                                status := ApprovalStatus.pending }],
                cancelled := false },
            pendingAction := ApprovalAction.cancelMembership }))
      "THREAD-001" true = none := rfl

/-- C5 amended: the suspension is non-blocking — `suspendHitl` is a state
transition that stores a checkpoint and returns — and an external human
decision arriving at any later point resumes the case from the checkpoint, but
only within the same process lifetime: after a process restart the in-memory
checkpoint is gone and resumption fails. -/
theorem c5_suspension_in_memory_only (p : AgentProcess) (threadId : String)
    (cp : Checkpoint) (approve : Bool) :
    resumeHitl (suspendHitl p threadId cp) threadId approve
      = some (step cp.caseSnapshot (Event.humanDecision approve))
    ∧ resumeHitl (restartProcess (suspendHitl p threadId cp)) threadId approve = none := by
  constructor
  · simp [resumeHitl, suspendHitl, List.lookup]
  · simp [resumeHitl, restartProcess, initProcess, List.lookup]

/-! ## JavaScript string primitives used by the web server actions

`addMessage` generates message ids with `String.prototype.split`,
`parseInt(s, 10)`, `String(n).padStart(3, '0')` and
`threadId.replace('THREAD-', '')`.  The functions below embed those
primitives on `List Char`. -/

/-- `s.split(sep)` for a single-character separator: splits at every
occurrence, keeping empty segments, and returns one (possibly empty) segment
even for the empty string. -/
def jsSplit (sep : Char) : List Char → List (List Char)
  | [] => [[]]
  | c :: cs =>
    if c = sep then [] :: jsSplit sep cs
    else
      match jsSplit sep cs with
      | [] => [[c]]
      | p :: ps => (c :: p) :: ps

/-- ASCII decimal digit test, as used by `parseInt` with radix 10. -/
def isDigitChar (c : Char) : Bool :=
  48 ≤ c.toNat && c.toNat ≤ 57

/-- Accumulating the value of leading decimal digits, stopping at the first
non-digit. -/
def parseNatAcc (acc : Nat) : List Char → Nat
  | [] => acc
  | c :: cs => if isDigitChar c then parseNatAcc (10 * acc + (c.toNat - 48)) cs else acc

/-- Value of a digit string that must start with a digit (`parseInt` returns
NaN, here `none`, otherwise). -/
def parseNatDigits : List Char → Option Nat
  | [] => none
  | c :: cs => if isDigitChar c then some (parseNatAcc (c.toNat - 48) cs) else none

/-- `parseInt(s, 10)`: skip leading whitespace, accept an optional sign, then
parse leading decimal digits; `none` models NaN. -/
def jsParseInt (s : List Char) : Option Int :=
  match s.dropWhile (fun c => c.isWhitespace) with
  | '-' :: rest => (parseNatDigits rest).map (fun n => -(n : Int))
  | '+' :: rest => (parseNatDigits rest).map (fun n => (n : Int))
  | s1 => (parseNatDigits s1).map (fun n => (n : Int))

/-- Decimal digit character for a value below ten. -/
def digitChar48 (d : Nat) : Char := Char.ofNat (48 + d)

/-- Decimal rendering of a natural number, fuel-based so that it reduces in
the kernel; `natDecChars` supplies enough fuel for any input. -/
def natDecCharsAux : Nat → Nat → List Char
  | 0, _ => []
  | fuel + 1, n =>
    if n < 10 then [digitChar48 n]
    else natDecCharsAux fuel (n / 10) ++ [digitChar48 (n % 10)]

/-- `String(n)` for a natural number. -/
def natDecChars (n : Nat) : List Char := natDecCharsAux (n + 1) n

/-- `String(i)` for an integer. -/
def intDecChars (i : Int) : List Char :=
  if i < 0 then '-' :: natDecChars i.natAbs else natDecChars i.natAbs

/-- `s.padStart(3, '0')`. -/
def padStart3Zeros (s : List Char) : List Char :=
  List.replicate (3 - s.length) '0' ++ s

/-- Drop the first occurrence of `pattern` from `text`, the behaviour of
JavaScript `text.replace(pattern, '')` for a plain-string pattern. -/
def stripFirst (pattern : List Char) : List Char → List Char
  | [] => []
  | c :: cs =>
    if pattern.isPrefixOf (c :: cs) then (c :: cs).drop pattern.length
    else c :: stripFirst pattern cs

/-- `threadId.replace(pattern, '')` on strings. -/
def jsReplaceFirst (s pattern : String) : String :=
  String.mk (stripFirst pattern.toList s.toList)

/-! ## Database model

Embedded from the Prisma migration SQL in the tree (`vanpools`, `employees`,
`riders`, `cases`, `email_threads`, `messages`, with their unique indexes and
foreign keys).  Rows carry the columns that the verified operations read or
write; display-only profile columns that no modelled operation touches are
omitted. -/

/-- Message direction (`inbound` / `outbound`). -/
inductive Direction where
  | inbound
  | outbound
deriving DecidableEq, Repr

/-- Case lifecycle status column: the `CaseStatus` values generated from the
Prisma schema (`prisma/seed.ts` and the components enumerate exactly these). -/
inductive CaseStatus where
  | «open»
  | verification
  | pending_reply
  | re_audit
  | hitl_review
  | pre_cancel
  | resolved
  | cancelled
deriving DecidableEq, Repr

/-- The string stored in the `status` column for each `CaseStatus` value. -/
def CaseStatus.toDbString : CaseStatus → String
  | CaseStatus.«open» => "open"
  | CaseStatus.verification => "verification"
  | CaseStatus.pending_reply => "pending_reply"
  | CaseStatus.re_audit => "re_audit"
  | CaseStatus.hitl_review => "hitl_review"
  | CaseStatus.pre_cancel => "pre_cancel"
  | CaseStatus.resolved => "resolved"
  | CaseStatus.cancelled => "cancelled"

/-- A case status is terminal when the case has reached its outcome
(`resolved` or `cancelled`). -/
def CaseStatus.isTerminal : CaseStatus → Bool
  | CaseStatus.resolved => true
  | CaseStatus.cancelled => true
  | _ => false

/-- A row of `employees` (columns read by the modelled operations). -/
structure EmployeeRow where
  employeeId : String
  email : String
deriving DecidableEq, Repr

/-- A row of `vanpools` (columns read by the modelled operations). -/
structure VanpoolRow where
  vanpoolId : String
  status : String
deriving DecidableEq, Repr

/-- A row of `riders`, linking an employee to a vanpool. -/
structure RiderRow where
  participantId : String
  vanpoolId : String
  employeeId : String
deriving DecidableEq, Repr

/-- A row of `cases`. -/
structure CaseRow where
  caseId : String
  vanpoolId : String
  status : CaseStatus
  metadata : String
  outcome : Option String
  createdAt : Nat
deriving DecidableEq, Repr

/-- A row of `email_threads`. -/
structure EmailThreadRow where
  threadId : String
  caseId : String
  vanpoolId : String
  subject : String
  status : String
deriving DecidableEq, Repr

/-- A row of `messages`.  `toEmails` is stored `JSON.stringify`'d in a text
column; the model keeps the list itself. -/
structure MessageRow where
  messageId : String
  threadId : String
  fromEmail : String
  toEmails : List String
  sentAt : Nat
  body : String
  direction : Direction
  classificationBucket : Option String
  classificationConfidence : Option Int
  status : String
deriving DecidableEq, Repr

/-- The database: one list of rows per table. -/
structure DB where
  employees : List EmployeeRow
  vanpools : List VanpoolRow
  riders : List RiderRow
  cases : List CaseRow
  emailThreads : List EmailThreadRow
  messages : List MessageRow
deriving DecidableEq, Repr

/-- The empty database. -/
def DB.empty : DB := ⟨[], [], [], [], [], []⟩

/-! ### Row inserts under the schema's constraints

Writers (the seed script, the dev create actions, the backend) insert rows
through the database, which enforces the migration's unique indexes and
foreign keys; an insert that violates one throws and changes nothing, which
the model renders as `none`. -/

/-- Insert into `employees`: unique `employee_id` and `email`. -/
def insertEmployee (db : DB) (e : EmployeeRow) : Option DB :=
  if db.employees.any (fun x => x.employeeId == e.employeeId || x.email == e.email) then none
  else some { db with employees := e :: db.employees }

/-- Insert into `vanpools`: unique `vanpool_id`. -/
def insertVanpool (db : DB) (v : VanpoolRow) : Option DB :=
  if db.vanpools.any (fun x => x.vanpoolId == v.vanpoolId) then none
  else some { db with vanpools := v :: db.vanpools }

/-- Insert into `riders`: unique `(vanpool_id, employee_id)` pair, foreign
keys to `vanpools` and `employees`. -/
def insertRider (db : DB) (r : RiderRow) : Option DB :=
  if db.riders.any (fun x => x.vanpoolId == r.vanpoolId && x.employeeId == r.employeeId) then none
  else if !(db.vanpools.any (fun v => v.vanpoolId == r.vanpoolId)) then none
  else if !(db.employees.any (fun e => e.employeeId == r.employeeId)) then none
  else some { db with riders := r :: db.riders }

/-- Insert into `cases`: unique `case_id`, foreign key to `vanpools`. -/
def insertCase (db : DB) (c : CaseRow) : Option DB :=
  if db.cases.any (fun x => x.caseId == c.caseId) then none
  else if !(db.vanpools.any (fun v => v.vanpoolId == c.vanpoolId)) then none
  else some { db with cases := c :: db.cases }

/-- Insert into `email_threads`: unique `thread_id`, unique `case_id`
(`email_threads_case_id_key`), foreign keys to `cases` and `vanpools`. -/
def insertEmailThread (db : DB) (t : EmailThreadRow) : Option DB :=
  if db.emailThreads.any (fun x => x.threadId == t.threadId) then none
  else if db.emailThreads.any (fun x => x.caseId == t.caseId) then none
  else if !(db.cases.any (fun c => c.caseId == t.caseId)) then none
  else if !(db.vanpools.any (fun v => v.vanpoolId == t.vanpoolId)) then none
  else some { db with emailThreads := t :: db.emailThreads }

/-- Status update on a case (the backend updates case statuses, e.g. to
`hitl_review`); keys are untouched. -/
def updateCaseStatus (db : DB) (caseId : String) (s : CaseStatus) : DB :=
  { db with cases := db.cases.map (fun c => if c.caseId == caseId then { c with status := s } else c) }

/-! ### The `addMessage` server action

Embedded from `apps/web/src/app/dev/messages/actions.ts`. -/

/-- Input of `addMessage`. -/
structure AddMessageInput where
  threadId : String
  fromEmail : String
  body : String
  direction : Direction
deriving DecidableEq, Repr

/-- Result of `addMessage`. -/
structure AddMessageResult where
  success : Bool
  messageId : Option String
  error : Option String
deriving DecidableEq, Repr

/-- Messages of one thread (the `messages` relation included in the thread
lookup). -/
def threadMessages (db : DB) (threadId : String) : List MessageRow :=
  db.messages.filter (fun m => m.threadId == threadId)

/-- The numeric component the id generator reads from an existing message id:
`parts[2]` of `messageId.split('-')`, parsed with `parseInt(·, 10)`; `none`
when the id has fewer than three parts or the part is not a number. -/
def msgNumOf (messageId : String) : Option Int :=
  let parts := jsSplit '-' messageId.toList
  if 3 ≤ parts.length then jsParseInt (parts.getD 2 []) else none

/-- One iteration of the source's `for` loop: keep the larger of the running
maximum and the id's parsed numeric component (skipping NaN). -/
def msgNumStep (acc : Int) (id : String) : Int :=
  match msgNumOf id with
  | some num => if acc < num then num else acc
  | none => acc

/-- The running maximum of the parsed numeric components over the thread's
existing message ids, starting from 0 (`maxMsgNum` in the source). -/
def maxMsgNum (ids : List String) : Int :=
  ids.foldl msgNumStep 0

/-- Message-id generation of `addMessage`:
`MSG-${threadNum}-${String(maxMsgNum + 1).padStart(3, '0')}` where
`threadNum = threadId.replace('THREAD-', '')`. -/
def genMessageId (threadId : String) (existingIds : List String) : String :=
  let threadNum := jsReplaceFirst threadId "THREAD-"
  let nextMsgNum := maxMsgNum existingIds + 1
  String.mk
    (('M' :: 'S' :: 'G' :: '-' :: threadNum.toList)
      ++ '-' :: padStart3Zeros (intDecChars nextMsgNum))

/-- Recipient emails for an outbound message: the emails of all employees
riding the thread's vanpool. -/
def vanpoolRiderEmails (db : DB) (vanpoolId : String) : List String :=
  (db.riders.filter (fun r => r.vanpoolId == vanpoolId)).filterMap
    (fun r => (db.employees.find? (fun e => e.employeeId == r.employeeId)).map
      (fun e => e.email))

/-- `addMessage`: validate that the thread exists, generate the next message
id from the thread's existing messages, compute the recipients from the
direction, and create the message (status `sent`, no classification fields).
The create fails on the global `messages_message_id_key` unique index; the
caught error is returned as `success = false` with the database unchanged.
`now` stands for `new Date()`. -/
def addMessage (db : DB) (input : AddMessageInput) (now : Nat) : AddMessageResult × DB :=
  match db.emailThreads.find? (fun t => t.threadId == input.threadId) with
  | none =>
      ({ success := false, messageId := none,
         error := some ("Thread " ++ input.threadId ++ " not found") }, db)
  | some thread =>
      let existingIds := (threadMessages db input.threadId).map (fun m => m.messageId)
      let messageId := genMessageId input.threadId existingIds
      let toEmails :=
        match input.direction with
        | Direction.outbound => vanpoolRiderEmails db thread.vanpoolId
        | Direction.inbound => ["poolpatrol@innovatecorp.com"]
      if db.messages.any (fun m => m.messageId == messageId) then
        ({ success := false, messageId := none,
           error := some "Unique constraint failed on the fields: (message_id)" }, db)
      else
        ({ success := true, messageId := some messageId, error := none },
         { db with messages :=
            { messageId := messageId, threadId := input.threadId,
              fromEmail := input.fromEmail, toEmails := toEmails, sentAt := now,
              body := input.body, direction := input.direction,
              classificationBucket := none, classificationConfidence := none,
              status := "sent" } :: db.messages })

/-! ### The `deleteVanpool` server action

Embedded from the delete action in the tree (`deleteVanpool`). -/

/-- Result of `deleteVanpool`, with the counts taken from the vanpool lookup
before deletion. -/
structure DeleteVanpoolResult where
  success : Bool
  error : Option String
  deletedCasesCount : Option Nat
  deletedEmailThreadsCount : Option Nat
  deletedRidersCount : Option Nat
deriving DecidableEq, Repr

/-- `deleteVanpool`: validate that the vanpool exists, then in one
transaction delete its email threads (messages cascade), its cases, and the
vanpool itself (riders cascade).  The `email_threads.case_id` foreign key is
`ON DELETE RESTRICT`: if a thread that survives step 1 still references a
case deleted in step 2, the transaction throws and rolls back, which the
caught error reports as `success = false` with the database unchanged. -/
def deleteVanpool (db : DB) (vanpoolId : String) : DeleteVanpoolResult × DB :=
  match db.vanpools.find? (fun v => v.vanpoolId == vanpoolId) with
  | none =>
      ({ success := false, error := some ("Vanpool " ++ vanpoolId ++ " not found"),
         deletedCasesCount := none, deletedEmailThreadsCount := none,
         deletedRidersCount := none }, db)
  | some _ =>
      let deletedThreads := db.emailThreads.filter (fun t => t.vanpoolId == vanpoolId)
      let remainingThreads := db.emailThreads.filter (fun t => !(t.vanpoolId == vanpoolId))
      let remainingMessages :=
        db.messages.filter (fun m => !(deletedThreads.any (fun t => t.threadId == m.threadId)))
      if remainingThreads.any (fun t =>
          db.cases.any (fun c => c.caseId == t.caseId && c.vanpoolId == vanpoolId)) then
        ({ success := false, error := some "Foreign key constraint failed",
           deletedCasesCount := none, deletedEmailThreadsCount := none,
           deletedRidersCount := none }, db)
      else
        ({ success := true, error := none,
           deletedCasesCount :=
             some (db.cases.filter (fun c => c.vanpoolId == vanpoolId)).length,
           deletedEmailThreadsCount := some deletedThreads.length,
           deletedRidersCount :=
             some (db.riders.filter (fun r => r.vanpoolId == vanpoolId)).length },
         { db with
            vanpools := db.vanpools.filter (fun v => !(v.vanpoolId == vanpoolId)),
            riders := db.riders.filter (fun r => !(r.vanpoolId == vanpoolId)),
            cases := db.cases.filter (fun c => !(c.vanpoolId == vanpoolId)),
            emailThreads := remainingThreads,
            messages := remainingMessages })

/-! ### The vanpool detail page's open-case filter

Embedded from the `openCases` filter of `apps/web/src/app/vanpools/[id]/page.tsx`
(the same filter appears on the employee detail page and the legacy vanpool
card). -/

/-- `cases.filter(c => ['open', 'pending_reply', 'under_review'].includes(c.status))`. -/
def openCasesFilter (cases : List CaseRow) : List CaseRow :=
  cases.filter (fun c =>
    (["open", "pending_reply", "under_review"].map (fun s => s == c.status.toDbString)).any id)

/-! ### Reachable database states

Any writer goes through the schema's constraints; a state is reachable when
it arises from the empty database by constraint-respecting inserts, case
status updates, and the two server actions. -/

inductive Reachable : DB → Prop where
  | empty : Reachable DB.empty
  | insertEmployee {db db' : DB} {e : EmployeeRow} :
      Reachable db → insertEmployee db e = some db' → Reachable db'
  | insertVanpool {db db' : DB} {v : VanpoolRow} :
      Reachable db → insertVanpool db v = some db' → Reachable db'
  | insertRider {db db' : DB} {r : RiderRow} :
      Reachable db → insertRider db r = some db' → Reachable db'
  | insertCase {db db' : DB} {c : CaseRow} :
      Reachable db → insertCase db c = some db' → Reachable db'
  | insertEmailThread {db db' : DB} {t : EmailThreadRow} :
      Reachable db → insertEmailThread db t = some db' → Reachable db'
  | updateCaseStatus {db : DB} {caseId : String} {s : CaseStatus} :
      Reachable db → Reachable (updateCaseStatus db caseId s)
  | addMessage {db : DB} {input : AddMessageInput} {now : Nat} :
      Reachable db → Reachable (addMessage db input now).2
  | deleteVanpool {db : DB} {vanpoolId : String} :
      Reachable db → Reachable (deleteVanpool db vanpoolId).2

/-! ## Open-case filter (claim C7) -/

/-- C7 fails on the code: the vanpool detail page's `openCases` filter matches
only the statuses `open`, `pending_reply` and `under_review`, but
`under_review` is not a value of the schema's `CaseStatus` at all, and the
non-terminal statuses `verification`, `re_audit`, `hitl_review` and
`pre_cancel` are not matched — a case in any of them is dropped from the Open
Cases section even though it is not resolved or cancelled. -/
theorem c7_nonterminal_cases_missing_from_open_cases :
    CaseStatus.isTerminal CaseStatus.hitl_review = false
    ∧ CaseStatus.isTerminal CaseStatus.verification = false
    ∧ CaseStatus.isTerminal CaseStatus.re_audit = false
    ∧ CaseStatus.isTerminal CaseStatus.pre_cancel = false
    ∧ openCasesFilter
        [{ caseId := "CASE-001", vanpoolId := "VP-101", status := CaseStatus.hitl_review,
           metadata := "\x7b\x7d", outcome := none, createdAt := 0 },
         { caseId := "CASE-002", vanpoolId := "VP-101", status := CaseStatus.verification,
           metadata := "\x7b\x7d", outcome := none, createdAt := 0 },
         { caseId := "CASE-003", vanpoolId := "VP-101", status := CaseStatus.re_audit,
           metadata := "\x7b\x7d", outcome := none, createdAt := 0 },
         { caseId := "CASE-004", vanpoolId := "VP-101", status := CaseStatus.pre_cancel,
           metadata := "\x7b\x7d", outcome := none, createdAt := 0 }] = []
    ∧ (∀ s : CaseStatus, s.toDbString ≠ "under_review") :=
  ⟨rfl, rfl, rfl, rfl, by decide, fun s => by cases s <;> decide⟩

/-! ## The `addMessage` action: error and success paths (claim C8) -/

theorem addMessage_success_shape (db : DB) (input : AddMessageInput) (now : Nat) :
    (addMessage db input now).1.success = true →
    ∃ row : MessageRow,
      addMessage db input now
        = ({ success := true, messageId := some row.messageId, error := none },
           { db with messages := row :: db.messages })
      ∧ row.threadId = input.threadId ∧ row.fromEmail = input.fromEmail
      ∧ row.body = input.body ∧ row.direction = input.direction
      ∧ row.sentAt = now ∧ row.classificationBucket = none
      ∧ row.classificationConfidence = none ∧ row.status = "sent" := by
  unfold addMessage
  cases hfind : db.emailThreads.find? (fun t => t.threadId == input.threadId) with
  | none =>
    intro h
    exact Bool.noConfusion h
  | some thread =>
    dsimp only
    split
    · intro h
      exact Bool.noConfusion h
    · intro _
      refine ⟨{ messageId := genMessageId input.threadId
                  ((threadMessages db input.threadId).map (fun m => m.messageId)),
                threadId := input.threadId, fromEmail := input.fromEmail,
                toEmails :=
                  match input.direction with
                  | Direction.outbound => vanpoolRiderEmails db thread.vanpoolId
                  | Direction.inbound => ["poolpatrol@innovatecorp.com"],
                sentAt := now, body := input.body, direction := input.direction,
                classificationBucket := none, classificationConfidence := none,
                status := "sent" }, rfl, rfl, rfl, rfl, rfl, rfl, rfl, rfl, rfl⟩

/-- C8: when no thread matches the input's `threadId`, `addMessage` reports
failure with a `Thread ... not found` error and leaves the database unchanged;
when it reports success, exactly one new message row was created (prepended to
the messages table) and the returned id is that row's id, all other tables
untouched. -/
theorem c8_addMessage_not_found_and_success (db : DB) (input : AddMessageInput) (now : Nat) :
    (db.emailThreads.find? (fun t => t.threadId == input.threadId) = none →
      (addMessage db input now).1
          = { success := false, messageId := none,
              error := some ("Thread " ++ input.threadId ++ " not found") }
        ∧ (addMessage db input now).2 = db)
    ∧ ((addMessage db input now).1.success = true →
      ∃ row : MessageRow,
        (addMessage db input now).2.messages = row :: db.messages
        ∧ (addMessage db input now).1.messageId = some row.messageId
        ∧ (addMessage db input now).2.emailThreads = db.emailThreads
        ∧ (addMessage db input now).2.cases = db.cases) := by
  constructor
  · intro hnone
    unfold addMessage
    rw [hnone]
    exact ⟨rfl, rfl⟩
  · intro hsucc
    obtain ⟨row, hrow, -⟩ := addMessage_success_shape db input now hsucc
    refine ⟨row, ?_, ?_, ?_, ?_⟩ <;> rw [hrow]

/-- Witness for C8 at a concrete database: a missing thread id errors and a
present one succeeds. -/
theorem c8_addMessage_not_found_and_success_witness :
    ((DB.mk [⟨"EMP-1001", "a@x.com"⟩] [⟨"VP-101", "active"⟩]
        [⟨"P-2001", "VP-101", "EMP-1001"⟩]
        [⟨"CASE-001", "VP-101", CaseStatus.pending_reply, "\x7b\x7d", none, 0⟩]
        [⟨"THREAD-001", "CASE-001", "VP-101", "subject", "active"⟩]
        []).emailThreads.find? (fun t => t.threadId == "THREAD-001") = none →
      (addMessage
          (DB.mk [⟨"EMP-1001", "a@x.com"⟩] [⟨"VP-101", "active"⟩]
            [⟨"P-2001", "VP-101", "EMP-1001"⟩]
            [⟨"CASE-001", "VP-101", CaseStatus.pending_reply, "\x7b\x7d", none, 0⟩]
            [⟨"THREAD-001", "CASE-001", "VP-101", "subject", "active"⟩] [])
          ⟨"THREAD-001", "a@x.com", "hello", Direction.inbound⟩ 5).1
          = { success := false, messageId := none,
              error := some ("Thread " ++ "THREAD-001" ++ " not found") }
        ∧ (addMessage
            (DB.mk [⟨"EMP-1001", "a@x.com"⟩] [⟨"VP-101", "active"⟩]
              [⟨"P-2001", "VP-101", "EMP-1001"⟩]
              [⟨"CASE-001", "VP-101", CaseStatus.pending_reply, "\x7b\x7d", none, 0⟩]
              [⟨"THREAD-001", "CASE-001", "VP-101", "subject", "active"⟩] [])
            ⟨"THREAD-001", "a@x.com", "hello", Direction.inbound⟩ 5).2
          = DB.mk [⟨"EMP-1001", "a@x.com"⟩] [⟨"VP-101", "active"⟩]
              [⟨"P-2001", "VP-101", "EMP-1001"⟩]
              [⟨"CASE-001", "VP-101", CaseStatus.pending_reply, "\x7b\x7d", none, 0⟩]
              [⟨"THREAD-001", "CASE-001", "VP-101", "subject", "active"⟩] [])
    ∧ ((addMessage
          (DB.mk [⟨"EMP-1001", "a@x.com"⟩] [⟨"VP-101", "active"⟩]
            [⟨"P-2001", "VP-101", "EMP-1001"⟩]
            [⟨"CASE-001", "VP-101", CaseStatus.pending_reply, "\x7b\x7d", none, 0⟩]
            [⟨"THREAD-001", "CASE-001", "VP-101", "subject", "active"⟩] [])
          ⟨"THREAD-001", "a@x.com", "hello", Direction.inbound⟩ 5).1.success = true →
      ∃ row : MessageRow,
        (addMessage
            (DB.mk [⟨"EMP-1001", "a@x.com"⟩] [⟨"VP-101", "active"⟩]
              [⟨"P-2001", "VP-101", "EMP-1001"⟩]
              [⟨"CASE-001", "VP-101", CaseStatus.pending_reply, "\x7b\x7d", none, 0⟩]
              [⟨"THREAD-001", "CASE-001", "VP-101", "subject", "active"⟩] [])
            ⟨"THREAD-001", "a@x.com", "hello", Direction.inbound⟩ 5).2.messages
          = row :: (DB.mk [⟨"EMP-1001", "a@x.com"⟩] [⟨"VP-101", "active"⟩]
              [⟨"P-2001", "VP-101", "EMP-1001"⟩]
              [⟨"CASE-001", "VP-101", CaseStatus.pending_reply, "\x7b\x7d", none, 0⟩]
              [⟨"THREAD-001", "CASE-001", "VP-101", "subject", "active"⟩] []).messages
        ∧ (addMessage
            (DB.mk [⟨"EMP-1001", "a@x.com"⟩] [⟨"VP-101", "active"⟩]
              [⟨"P-2001", "VP-101", "EMP-1001"⟩]
              [⟨"CASE-001", "VP-101", CaseStatus.pending_reply, "\x7b\x7d", none, 0⟩]
              [⟨"THREAD-001", "CASE-001", "VP-101", "subject", "active"⟩] [])
            ⟨"THREAD-001", "a@x.com", "hello", Direction.inbound⟩ 5).1.messageId
          = some row.messageId
        ∧ (addMessage
            (DB.mk [⟨"EMP-1001", "a@x.com"⟩] [⟨"VP-101", "active"⟩]
              [⟨"P-2001", "VP-101", "EMP-1001"⟩]
              [⟨"CASE-001", "VP-101", CaseStatus.pending_reply, "\x7b\x7d", none, 0⟩]
              [⟨"THREAD-001", "CASE-001", "VP-101", "subject", "active"⟩] [])
            ⟨"THREAD-001", "a@x.com", "hello", Direction.inbound⟩ 5).2.emailThreads
          = (DB.mk [⟨"EMP-1001", "a@x.com"⟩] [⟨"VP-101", "active"⟩]
              [⟨"P-2001", "VP-101", "EMP-1001"⟩]
              [⟨"CASE-001", "VP-101", CaseStatus.pending_reply, "\x7b\x7d", none, 0⟩]
              [⟨"THREAD-001", "CASE-001", "VP-101", "subject", "active"⟩] []).emailThreads
        ∧ (addMessage
            (DB.mk [⟨"EMP-1001", "a@x.com"⟩] [⟨"VP-101", "active"⟩]
              [⟨"P-2001", "VP-101", "EMP-1001"⟩]
              [⟨"CASE-001", "VP-101", CaseStatus.pending_reply, "\x7b\x7d", none, 0⟩]
              [⟨"THREAD-001", "CASE-001", "VP-101", "subject", "active"⟩] [])
            ⟨"THREAD-001", "a@x.com", "hello", Direction.inbound⟩ 5).2.cases
          = (DB.mk [⟨"EMP-1001", "a@x.com"⟩] [⟨"VP-101", "active"⟩]
              [⟨"P-2001", "VP-101", "EMP-1001"⟩]
              [⟨"CASE-001", "VP-101", CaseStatus.pending_reply, "\x7b\x7d", none, 0⟩]
              [⟨"THREAD-001", "CASE-001", "VP-101", "subject", "active"⟩] []).cases) :=
  c8_addMessage_not_found_and_success
    (DB.mk [⟨"EMP-1001", "a@x.com"⟩] [⟨"VP-101", "active"⟩]
      [⟨"P-2001", "VP-101", "EMP-1001"⟩]
      [⟨"CASE-001", "VP-101", CaseStatus.pending_reply, "\x7b\x7d", none, 0⟩]
      [⟨"THREAD-001", "CASE-001", "VP-101", "subject", "active"⟩] [])
    ⟨"THREAD-001", "a@x.com", "hello", Direction.inbound⟩ 5

/-! ## Reply ingestion stores no classification (claim C6) -/

/-- C6 fails on the code: ingesting an inbound reply on an existing thread via
`addMessage` appends the message but invokes no classifier — the stored row's
classification category and confidence are both left empty.  Concrete run: a
reply on `THREAD-001` is stored with `classificationBucket = none` and
`classificationConfidence = none`. -/
theorem c6_ingest_without_classification_counterexample :
    ((addMessage
        (DB.mk [⟨"EMP-1001", "a@x.com"⟩] [⟨"VP-101", "active"⟩]
          [⟨"P-2001", "VP-101", "EMP-1001"⟩]
          [⟨"CASE-001", "VP-101", CaseStatus.pending_reply, "\x7b\x7d", none, 0⟩]
          [⟨"THREAD-001", "CASE-001", "VP-101", "subject", "active"⟩] [])
        ⟨"THREAD-001", "a@x.com", "I updated my address", Direction.inbound⟩ 5).1.success
      = true)
    ∧ ((addMessage
        (DB.mk [⟨"EMP-1001", "a@x.com"⟩] [⟨"VP-101", "active"⟩]
          [⟨"P-2001", "VP-101", "EMP-1001"⟩]
          [⟨"CASE-001", "VP-101", CaseStatus.pending_reply, "\x7b\x7d", none, 0⟩]
          [⟨"THREAD-001", "CASE-001", "VP-101", "subject", "active"⟩] [])
        ⟨"THREAD-001", "a@x.com", "I updated my address", Direction.inbound⟩ 5).2.messages.map
          (fun m => (m.direction, m.classificationBucket, m.classificationConfidence)))
      = [(Direction.inbound, none, none)] := by
  exact ⟨rfl, rfl⟩

/-- C6 amended: a successful `addMessage` on an existing thread appends
exactly one message to that thread, carrying the input's direction and body
and status `sent`; no classifier is invoked during ingestion and the stored
message's classification category and confidence are left unset (they are
populated later by the backend's outreach flow). -/
theorem c6_ingest_appends_unclassified (db : DB) (input : AddMessageInput) (now : Nat)
    (hsucc : (addMessage db input now).1.success = true) :
    ∃ row : MessageRow,
      (addMessage db input now).2.messages = row :: db.messages
      ∧ threadMessages (addMessage db input now).2 input.threadId
          = row :: threadMessages db input.threadId
      ∧ row.direction = input.direction
      ∧ row.body = input.body
      ∧ row.status = "sent"
      ∧ row.classificationBucket = none
      ∧ row.classificationConfidence = none := by
  obtain ⟨row, hrow, htid, -, hbody, hdir, -, hbk, hconf, hst⟩ :=
    addMessage_success_shape db input now hsucc
  refine ⟨row, by rw [hrow], ?_, hdir, hbody, hst, hbk, hconf⟩
  rw [hrow]
  unfold threadMessages
  simp only [List.filter_cons]
  rw [htid]
  simp

/-- Witness for C6's amended statement: the concrete ingestion run on
`THREAD-001`. -/
theorem c6_ingest_appends_unclassified_witness :
    ∃ row : MessageRow,
      (addMessage
          (DB.mk [⟨"EMP-1001", "a@x.com"⟩] [⟨"VP-101", "active"⟩]
            [⟨"P-2001", "VP-101", "EMP-1001"⟩]
            [⟨"CASE-001", "VP-101", CaseStatus.pending_reply, "\x7b\x7d", none, 0⟩]
            [⟨"THREAD-001", "CASE-001", "VP-101", "subject", "active"⟩] [])
          ⟨"THREAD-001", "a@x.com", "I updated my address", Direction.inbound⟩ 5).2.messages
        = row :: (DB.mk [⟨"EMP-1001", "a@x.com"⟩] [⟨"VP-101", "active"⟩]
            [⟨"P-2001", "VP-101", "EMP-1001"⟩]
            [⟨"CASE-001", "VP-101", CaseStatus.pending_reply, "\x7b\x7d", none, 0⟩]
            [⟨"THREAD-001", "CASE-001", "VP-101", "subject", "active"⟩] []).messages
      ∧ threadMessages
          (addMessage
            (DB.mk [⟨"EMP-1001", "a@x.com"⟩] [⟨"VP-101", "active"⟩]
              [⟨"P-2001", "VP-101", "EMP-1001"⟩]
              [⟨"CASE-001", "VP-101", CaseStatus.pending_reply, "\x7b\x7d", none, 0⟩]
              [⟨"THREAD-001", "CASE-001", "VP-101", "subject", "active"⟩] [])
            ⟨"THREAD-001", "a@x.com", "I updated my address", Direction.inbound⟩ 5).2
          "THREAD-001"
        = row :: threadMessages
            (DB.mk [⟨"EMP-1001", "a@x.com"⟩] [⟨"VP-101", "active"⟩]
              [⟨"P-2001", "VP-101", "EMP-1001"⟩]
              [⟨"CASE-001", "VP-101", CaseStatus.pending_reply, "\x7b\x7d", none, 0⟩]
              [⟨"THREAD-001", "CASE-001", "VP-101", "subject", "active"⟩] [])
            "THREAD-001"
      ∧ row.direction = Direction.inbound
      ∧ row.body = "I updated my address"
      ∧ row.status = "sent"
      ∧ row.classificationBucket = none
      ∧ row.classificationConfidence = none :=
  c6_ingest_appends_unclassified
    (DB.mk [⟨"EMP-1001", "a@x.com"⟩] [⟨"VP-101", "active"⟩]
      [⟨"P-2001", "VP-101", "EMP-1001"⟩]
      [⟨"CASE-001", "VP-101", CaseStatus.pending_reply, "\x7b\x7d", none, 0⟩]
      [⟨"THREAD-001", "CASE-001", "VP-101", "subject", "active"⟩] [])
    ⟨"THREAD-001", "a@x.com", "I updated my address", Direction.inbound⟩ 5 (by decide)

/-! ## The `deleteVanpool` action (claim C10) -/

/-- C10: `deleteVanpool` on an existing vanpool removes, in one transaction,
the vanpool's email threads together with their messages (cascade), its
cases, its rider links (cascade) and the vanpool row itself, and leaves
employees untouched; on a missing vanpool it fails and deletes nothing.  The
hypothesis is the data-consistency condition under which the transaction's
`ON DELETE RESTRICT` check on `email_threads.case_id` cannot fire: threads of
the vanpool's cases are recorded under that vanpool. -/
theorem c10_deleteVanpool_frame (db : DB) (vanpoolId : String)
    (hcons : ∀ t ∈ db.emailThreads, ∀ c ∈ db.cases,
        t.caseId = c.caseId → c.vanpoolId = vanpoolId → t.vanpoolId = vanpoolId) :
    (db.vanpools.find? (fun v => v.vanpoolId == vanpoolId) = none →
      (deleteVanpool db vanpoolId).1.success = false
      ∧ (deleteVanpool db vanpoolId).2 = db)
    ∧ (∀ vp, db.vanpools.find? (fun v => v.vanpoolId == vanpoolId) = some vp →
      (deleteVanpool db vanpoolId).1.success = true
      ∧ (deleteVanpool db vanpoolId).2.emailThreads
          = db.emailThreads.filter (fun t => !(t.vanpoolId == vanpoolId))
      ∧ (deleteVanpool db vanpoolId).2.messages
          = db.messages.filter (fun m =>
              !((db.emailThreads.filter (fun t => t.vanpoolId == vanpoolId)).any
                  (fun t => t.threadId == m.threadId)))
      ∧ (deleteVanpool db vanpoolId).2.cases
          = db.cases.filter (fun c => !(c.vanpoolId == vanpoolId))
      ∧ (deleteVanpool db vanpoolId).2.riders
          = db.riders.filter (fun r => !(r.vanpoolId == vanpoolId))
      ∧ (deleteVanpool db vanpoolId).2.vanpools
          = db.vanpools.filter (fun v => !(v.vanpoolId == vanpoolId))
      ∧ (deleteVanpool db vanpoolId).2.employees = db.employees) := by
  constructor
  · intro hnone
    unfold deleteVanpool
    rw [hnone]
    exact ⟨rfl, rfl⟩
  · intro vp hfind
    unfold deleteVanpool
    rw [hfind]
    dsimp only
    have hcheck : ((db.emailThreads.filter (fun t => !(t.vanpoolId == vanpoolId))).any
        (fun t => db.cases.any (fun c => c.caseId == t.caseId && c.vanpoolId == vanpoolId)))
        = false := by
      rw [Bool.eq_false_iff]
      intro hany
      rw [List.any_eq_true] at hany
      obtain ⟨t, ht, hinner⟩ := hany
      rw [List.mem_filter] at ht
      obtain ⟨htmem, htne⟩ := ht
      rw [List.any_eq_true] at hinner
      obtain ⟨c, hc, hcb⟩ := hinner
      rw [Bool.and_eq_true, beq_iff_eq, beq_iff_eq] at hcb
      have := hcons t htmem c hc hcb.1.symm hcb.2
      simp [this] at htne
    rw [hcheck]
    exact ⟨rfl, rfl, rfl, rfl, rfl, rfl, rfl⟩

/-- Witness for C10 at a concrete database with one vanpool, one case, one
thread, one message, one rider and one employee. -/
theorem c10_deleteVanpool_frame_witness :
    ((DB.mk [⟨"EMP-1001", "a@x.com"⟩] [⟨"VP-101", "active"⟩]
        [⟨"P-2001", "VP-101", "EMP-1001"⟩]
        [⟨"CASE-001", "VP-101", CaseStatus.pending_reply, "\x7b\x7d", none, 0⟩]
        [⟨"THREAD-001", "CASE-001", "VP-101", "subject", "active"⟩]
        [⟨"MSG-001-001", "THREAD-001", "pp@i.com", ["a@x.com"], 0, "hello",
          Direction.outbound, none, none, "sent"⟩]).vanpools.find?
        (fun v => v.vanpoolId == "VP-101") = none →
      (deleteVanpool
          (DB.mk [⟨"EMP-1001", "a@x.com"⟩] [⟨"VP-101", "active"⟩]
            [⟨"P-2001", "VP-101", "EMP-1001"⟩]
            [⟨"CASE-001", "VP-101", CaseStatus.pending_reply, "\x7b\x7d", none, 0⟩]
            [⟨"THREAD-001", "CASE-001", "VP-101", "subject", "active"⟩]
            [⟨"MSG-001-001", "THREAD-001", "pp@i.com", ["a@x.com"], 0, "hello",
              Direction.outbound, none, none, "sent"⟩]) "VP-101").1.success = false
      ∧ (deleteVanpool
          (DB.mk [⟨"EMP-1001", "a@x.com"⟩] [⟨"VP-101", "active"⟩]
            [⟨"P-2001", "VP-101", "EMP-1001"⟩]
            [⟨"CASE-001", "VP-101", CaseStatus.pending_reply, "\x7b\x7d", none, 0⟩]
            [⟨"THREAD-001", "CASE-001", "VP-101", "subject", "active"⟩]
            [⟨"MSG-001-001", "THREAD-001", "pp@i.com", ["a@x.com"], 0, "hello",
              Direction.outbound, none, none, "sent"⟩]) "VP-101").2
          = DB.mk [⟨"EMP-1001", "a@x.com"⟩] [⟨"VP-101", "active"⟩]
              [⟨"P-2001", "VP-101", "EMP-1001"⟩]
              [⟨"CASE-001", "VP-101", CaseStatus.pending_reply, "\x7b\x7d", none, 0⟩]
              [⟨"THREAD-001", "CASE-001", "VP-101", "subject", "active"⟩]
              [⟨"MSG-001-001", "THREAD-001", "pp@i.com", ["a@x.com"], 0, "hello",
                Direction.outbound, none, none, "sent"⟩])
    ∧ (∀ vp, (DB.mk [⟨"EMP-1001", "a@x.com"⟩] [⟨"VP-101", "active"⟩]
        [⟨"P-2001", "VP-101", "EMP-1001"⟩]
        [⟨"CASE-001", "VP-101", CaseStatus.pending_reply, "\x7b\x7d", none, 0⟩]
        [⟨"THREAD-001", "CASE-001", "VP-101", "subject", "active"⟩]
        [⟨"MSG-001-001", "THREAD-001", "pp@i.com", ["a@x.com"], 0, "hello",
          Direction.outbound, none, none, "sent"⟩]).vanpools.find?
        (fun v => v.vanpoolId == "VP-101") = some vp →
      (deleteVanpool
          (DB.mk [⟨"EMP-1001", "a@x.com"⟩] [⟨"VP-101", "active"⟩]
            [⟨"P-2001", "VP-101", "EMP-1001"⟩]
            [⟨"CASE-001", "VP-101", CaseStatus.pending_reply, "\x7b\x7d", none, 0⟩]
            [⟨"THREAD-001", "CASE-001", "VP-101", "subject", "active"⟩]
            [⟨"MSG-001-001", "THREAD-001", "pp@i.com", ["a@x.com"], 0, "hello",
              Direction.outbound, none, none, "sent"⟩]) "VP-101").1.success = true
      ∧ (deleteVanpool
          (DB.mk [⟨"EMP-1001", "a@x.com"⟩] [⟨"VP-101", "active"⟩]
            [⟨"P-2001", "VP-101", "EMP-1001"⟩]
            [⟨"CASE-001", "VP-101", CaseStatus.pending_reply, "\x7b\x7d", none, 0⟩]
            [⟨"THREAD-001", "CASE-001", "VP-101", "subject", "active"⟩]
            [⟨"MSG-001-001", "THREAD-001", "pp@i.com", ["a@x.com"], 0, "hello",
              Direction.outbound, none, none, "sent"⟩]) "VP-101").2.emailThreads
          = (DB.mk [⟨"EMP-1001", "a@x.com"⟩] [⟨"VP-101", "active"⟩]
              [⟨"P-2001", "VP-101", "EMP-1001"⟩]
              [⟨"CASE-001", "VP-101", CaseStatus.pending_reply, "\x7b\x7d", none, 0⟩]
              [⟨"THREAD-001", "CASE-001", "VP-101", "subject", "active"⟩]
              [⟨"MSG-001-001", "THREAD-001", "pp@i.com", ["a@x.com"], 0, "hello",
                Direction.outbound, none, none, "sent"⟩]).emailThreads.filter
              (fun t => !(t.vanpoolId == "VP-101"))
      ∧ (deleteVanpool
          (DB.mk [⟨"EMP-1001", "a@x.com"⟩] [⟨"VP-101", "active"⟩]
            [⟨"P-2001", "VP-101", "EMP-1001"⟩]
            [⟨"CASE-001", "VP-101", CaseStatus.pending_reply, "\x7b\x7d", none, 0⟩]
            [⟨"THREAD-001", "CASE-001", "VP-101", "subject", "active"⟩]
            [⟨"MSG-001-001", "THREAD-001", "pp@i.com", ["a@x.com"], 0, "hello",
              Direction.outbound, none, none, "sent"⟩]) "VP-101").2.messages
          = (DB.mk [⟨"EMP-1001", "a@x.com"⟩] [⟨"VP-101", "active"⟩]
              [⟨"P-2001", "VP-101", "EMP-1001"⟩]
              [⟨"CASE-001", "VP-101", CaseStatus.pending_reply, "\x7b\x7d", none, 0⟩]
              [⟨"THREAD-001", "CASE-001", "VP-101", "subject", "active"⟩]
              [⟨"MSG-001-001", "THREAD-001", "pp@i.com", ["a@x.com"], 0, "hello",
                Direction.outbound, none, none, "sent"⟩]).messages.filter
              (fun m =>
                !(((DB.mk [⟨"EMP-1001", "a@x.com"⟩] [⟨"VP-101", "active"⟩]
                    [⟨"P-2001", "VP-101", "EMP-1001"⟩]
                    [⟨"CASE-001", "VP-101", CaseStatus.pending_reply, "\x7b\x7d", none, 0⟩]
                    [⟨"THREAD-001", "CASE-001", "VP-101", "subject", "active"⟩]
                    [⟨"MSG-001-001", "THREAD-001", "pp@i.com", ["a@x.com"], 0, "hello",
                      Direction.outbound, none, none, "sent"⟩]).emailThreads.filter
                    (fun t => t.vanpoolId == "VP-101")).any
                    (fun t => t.threadId == m.threadId)))
      ∧ (deleteVanpool
          (DB.mk [⟨"EMP-1001", "a@x.com"⟩] [⟨"VP-101", "active"⟩]
            [⟨"P-2001", "VP-101", "EMP-1001"⟩]
            [⟨"CASE-001", "VP-101", CaseStatus.pending_reply, "\x7b\x7d", none, 0⟩]
            [⟨"THREAD-001", "CASE-001", "VP-101", "subject", "active"⟩]
            [⟨"MSG-001-001", "THREAD-001", "pp@i.com", ["a@x.com"], 0, "hello",
              Direction.outbound, none, none, "sent"⟩]) "VP-101").2.cases
          = (DB.mk [⟨"EMP-1001", "a@x.com"⟩] [⟨"VP-101", "active"⟩]
              [⟨"P-2001", "VP-101", "EMP-1001"⟩]
              [⟨"CASE-001", "VP-101", CaseStatus.pending_reply, "\x7b\x7d", none, 0⟩]
              [⟨"THREAD-001", "CASE-001", "VP-101", "subject", "active"⟩]
              [⟨"MSG-001-001", "THREAD-001", "pp@i.com", ["a@x.com"], 0, "hello",
                Direction.outbound, none, none, "sent"⟩]).cases.filter
              (fun c => !(c.vanpoolId == "VP-101"))
      ∧ (deleteVanpool
          (DB.mk [⟨"EMP-1001", "a@x.com"⟩] [⟨"VP-101", "active"⟩]
            [⟨"P-2001", "VP-101", "EMP-1001"⟩]
            [⟨"CASE-001", "VP-101", CaseStatus.pending_reply, "\x7b\x7d", none, 0⟩]
            [⟨"THREAD-001", "CASE-001", "VP-101", "subject", "active"⟩]
            [⟨"MSG-001-001", "THREAD-001", "pp@i.com", ["a@x.com"], 0, "hello",
              Direction.outbound, none, none, "sent"⟩]) "VP-101").2.riders
          = (DB.mk [⟨"EMP-1001", "a@x.com"⟩] [⟨"VP-101", "active"⟩]
              [⟨"P-2001", "VP-101", "EMP-1001"⟩]
              [⟨"CASE-001", "VP-101", CaseStatus.pending_reply, "\x7b\x7d", none, 0⟩]
              [⟨"THREAD-001", "CASE-001", "VP-101", "subject", "active"⟩]
              [⟨"MSG-001-001", "THREAD-001", "pp@i.com", ["a@x.com"], 0, "hello",
                Direction.outbound, none, none, "sent"⟩]).riders.filter
              (fun r => !(r.vanpoolId == "VP-101"))
      ∧ (deleteVanpool
          (DB.mk [⟨"EMP-1001", "a@x.com"⟩] [⟨"VP-101", "active"⟩]
            [⟨"P-2001", "VP-101", "EMP-1001"⟩]
            [⟨"CASE-001", "VP-101", CaseStatus.pending_reply, "\x7b\x7d", none, 0⟩]
            [⟨"THREAD-001", "CASE-001", "VP-101", "subject", "active"⟩]
            [⟨"MSG-001-001", "THREAD-001", "pp@i.com", ["a@x.com"], 0, "hello",
              Direction.outbound, none, none, "sent"⟩]) "VP-101").2.vanpools
          = (DB.mk [⟨"EMP-1001", "a@x.com"⟩] [⟨"VP-101", "active"⟩]
              [⟨"P-2001", "VP-101", "EMP-1001"⟩]
              [⟨"CASE-001", "VP-101", CaseStatus.pending_reply, "\x7b\x7d", none, 0⟩]
              [⟨"THREAD-001", "CASE-001", "VP-101", "subject", "active"⟩]
              [⟨"MSG-001-001", "THREAD-001", "pp@i.com", ["a@x.com"], 0, "hello",
                Direction.outbound, none, none, "sent"⟩]).vanpools.filter
              (fun v => !(v.vanpoolId == "VP-101"))
      ∧ (deleteVanpool
          (DB.mk [⟨"EMP-1001", "a@x.com"⟩] [⟨"VP-101", "active"⟩]
            [⟨"P-2001", "VP-101", "EMP-1001"⟩]
            [⟨"CASE-001", "VP-101", CaseStatus.pending_reply, "\x7b\x7d", none, 0⟩]
            [⟨"THREAD-001", "CASE-001", "VP-101", "subject", "active"⟩]
            [⟨"MSG-001-001", "THREAD-001", "pp@i.com", ["a@x.com"], 0, "hello",
              Direction.outbound, none, none, "sent"⟩]) "VP-101").2.employees
          = (DB.mk [⟨"EMP-1001", "a@x.com"⟩] [⟨"VP-101", "active"⟩]
              [⟨"P-2001", "VP-101", "EMP-1001"⟩]
              [⟨"CASE-001", "VP-101", CaseStatus.pending_reply, "\x7b\x7d", none, 0⟩]
              [⟨"THREAD-001", "CASE-001", "VP-101", "subject", "active"⟩]
              [⟨"MSG-001-001", "THREAD-001", "pp@i.com", ["a@x.com"], 0, "hello",
                Direction.outbound, none, none, "sent"⟩]).employees) :=
  c10_deleteVanpool_frame
    (DB.mk [⟨"EMP-1001", "a@x.com"⟩] [⟨"VP-101", "active"⟩]
      [⟨"P-2001", "VP-101", "EMP-1001"⟩]
      [⟨"CASE-001", "VP-101", CaseStatus.pending_reply, "\x7b\x7d", none, 0⟩]
      [⟨"THREAD-001", "CASE-001", "VP-101", "subject", "active"⟩]
      [⟨"MSG-001-001", "THREAD-001", "pp@i.com", ["a@x.com"], 0, "hello",
        Direction.outbound, none, none, "sent"⟩]) "VP-101"
    (by decide)

/-! ## Thread-per-case uniqueness (claim C4) -/

/-- The invariant behind claim C4: email threads have pairwise distinct
`case_id`s (the `email_threads_case_id_key` unique index), cases have pairwise
distinct `case_id`s (the `cases_case_id_key` unique index), and every thread's
`case_id` references an existing case (the `email_threads.case_id` foreign
key). -/
def ThreadInv (db : DB) : Prop :=
  db.emailThreads.Pairwise (fun t1 t2 => t1.caseId ≠ t2.caseId)
  ∧ db.cases.Pairwise (fun c1 c2 => c1.caseId ≠ c2.caseId)
  ∧ ∀ t ∈ db.emailThreads, ∃ c ∈ db.cases, c.caseId = t.caseId

theorem threadInv_of_eq {db1 db2 : DB} (ht : db2.emailThreads = db1.emailThreads)
    (hc : db2.cases = db1.cases) (hi : ThreadInv db1) : ThreadInv db2 := by
  unfold ThreadInv at *
  rw [ht, hc]
  exact hi

theorem threadInv_insertEmployee {db db' : DB} {e : EmployeeRow}
    (h : insertEmployee db e = some db') (hi : ThreadInv db) : ThreadInv db' := by
  unfold insertEmployee at h
  split at h
  · exact Option.noConfusion h
  · injection h with h
    subst h
    exact hi

theorem threadInv_insertVanpool {db db' : DB} {v : VanpoolRow}
    (h : insertVanpool db v = some db') (hi : ThreadInv db) : ThreadInv db' := by
  unfold insertVanpool at h
  split at h
  · exact Option.noConfusion h
  · injection h with h
    subst h
    exact hi

theorem threadInv_insertRider {db db' : DB} {r : RiderRow}
    (h : insertRider db r = some db') (hi : ThreadInv db) : ThreadInv db' := by
  unfold insertRider at h
  split at h
  · exact Option.noConfusion h
  · split at h
    · exact Option.noConfusion h
    · split at h
      · exact Option.noConfusion h
      · injection h with h
        subst h
        exact hi

theorem threadInv_insertCase {db db' : DB} {c : CaseRow}
    (h : insertCase db c = some db') (hi : ThreadInv db) : ThreadInv db' := by
  unfold insertCase at h
  split at h
  · exact Option.noConfusion h
  next hdup =>
    split at h
    · exact Option.noConfusion h
    · injection h with h
      subst h
      obtain ⟨hp1, hp2, hfk⟩ := hi
      refine ⟨hp1, ?_, ?_⟩
      · refine List.Pairwise.cons ?_ hp2
        intro x hx heq
        apply hdup
        rw [List.any_eq_true]
        exact ⟨x, hx, by rw [beq_iff_eq]; exact heq.symm⟩
      · intro t ht
        obtain ⟨c', hc', hceq⟩ := hfk t ht
        exact ⟨c', List.mem_cons_of_mem _ hc', hceq⟩

theorem threadInv_insertEmailThread {db db' : DB} {t : EmailThreadRow}
    (h : insertEmailThread db t = some db') (hi : ThreadInv db) : ThreadInv db' := by
  unfold insertEmailThread at h
  split at h
  · exact Option.noConfusion h
  next hdupThread =>
    split at h
    · exact Option.noConfusion h
    next hdupCase =>
      split at h
      · exact Option.noConfusion h
      next hfkCase =>
        split at h
        · exact Option.noConfusion h
        next hfkVanpool =>
          injection h with h
          subst h
          obtain ⟨hp1, hp2, hfk⟩ := hi
          have hcase : (db.cases.any (fun c => c.caseId == t.caseId)) = true := by
            cases hb : db.cases.any (fun c => c.caseId == t.caseId) with
            | true => rfl
            | false => exact absurd (by rw [hb]; rfl) hfkCase
          refine ⟨?_, hp2, ?_⟩
          · refine List.Pairwise.cons ?_ hp1
            intro x hx heq
            apply hdupCase
            rw [List.any_eq_true]
            exact ⟨x, hx, by rw [beq_iff_eq]; exact heq.symm⟩
          · intro t' ht'
            rcases List.mem_cons.mp ht' with rfl | ht'
            · rw [List.any_eq_true] at hcase
              obtain ⟨c, hc, hcb⟩ := hcase
              exact ⟨c, hc, by rwa [beq_iff_eq] at hcb⟩
            · exact hfk t' ht'

theorem updateStatus_caseId (cid : String) (s : CaseStatus) (c : CaseRow) :
    ((if c.caseId == cid then { c with status := s } else c) : CaseRow).caseId = c.caseId := by
  split <;> rfl

theorem threadInv_updateCaseStatus (db : DB) (cid : String) (s : CaseStatus)
    (hi : ThreadInv db) : ThreadInv (updateCaseStatus db cid s) := by
  obtain ⟨hp1, hp2, hfk⟩ := hi
  refine ⟨hp1, ?_, ?_⟩
  · unfold updateCaseStatus
    rw [List.pairwise_map]
    refine List.Pairwise.imp ?_ hp2
    intro a b hab
    rw [updateStatus_caseId, updateStatus_caseId]
    exact hab
  · intro t ht
    obtain ⟨c, hc, hceq⟩ := hfk t ht
    refine ⟨(if c.caseId == cid then { c with status := s } else c), ?_, ?_⟩
    · exact List.mem_map_of_mem _ hc
    · rw [updateStatus_caseId]
      exact hceq

theorem addMessage_threads_cases (db : DB) (input : AddMessageInput) (now : Nat) :
    (addMessage db input now).2.emailThreads = db.emailThreads
    ∧ (addMessage db input now).2.cases = db.cases := by
  unfold addMessage
  cases db.emailThreads.find? (fun t => t.threadId == input.threadId) with
  | none => exact ⟨rfl, rfl⟩
  | some thread =>
    dsimp only
    split
    · exact ⟨rfl, rfl⟩
    · exact ⟨rfl, rfl⟩

theorem threadInv_deleteVanpool (db : DB) (vid : String) (hi : ThreadInv db) :
    ThreadInv (deleteVanpool db vid).2 := by
  unfold deleteVanpool
  cases hfind : db.vanpools.find? (fun v => v.vanpoolId == vid) with
  | none => exact hi
  | some vp =>
    dsimp only
    split
    · exact hi
    next hcheck =>
      obtain ⟨hp1, hp2, hfk⟩ := hi
      refine ⟨List.Pairwise.filter _ hp1, List.Pairwise.filter _ hp2, ?_⟩
      intro t ht
      rw [List.mem_filter] at ht
      obtain ⟨htmem, htkeep⟩ := ht
      obtain ⟨c, hc, hceq⟩ := hfk t htmem
      refine ⟨c, ?_, hceq⟩
      rw [List.mem_filter]
      refine ⟨hc, ?_⟩
      cases hcv : (c.vanpoolId == vid) with
      | false => rfl
      | true =>
        exfalso
        apply hcheck
        rw [List.any_eq_true]
        refine ⟨t, by rw [List.mem_filter]; exact ⟨htmem, htkeep⟩, ?_⟩
        rw [List.any_eq_true]
        exact ⟨c, hc, by rw [Bool.and_eq_true, beq_iff_eq]; exact ⟨hceq, hcv⟩⟩

theorem threadInv_reachable {db : DB} (h : Reachable db) : ThreadInv db := by
  induction h with
  | empty => exact ⟨List.Pairwise.nil, List.Pairwise.nil, fun t ht => absurd ht (List.not_mem_nil t)⟩
  | insertEmployee _ heq ih => exact threadInv_insertEmployee heq ih
  | insertVanpool _ heq ih => exact threadInv_insertVanpool heq ih
  | insertRider _ heq ih => exact threadInv_insertRider heq ih
  | insertCase _ heq ih => exact threadInv_insertCase heq ih
  | insertEmailThread _ heq ih => exact threadInv_insertEmailThread heq ih
  | updateCaseStatus _ ih => exact threadInv_updateCaseStatus _ _ _ ih
  | addMessage _ ih =>
    exact threadInv_of_eq (addMessage_threads_cases _ _ _).1 (addMessage_threads_cases _ _ _).2 ih
  | deleteVanpool _ ih => exact threadInv_deleteVanpool _ _ ih

theorem pairwise_caseId_injOn {l : List CaseRow}
    (hp : l.Pairwise (fun c1 c2 => c1.caseId ≠ c2.caseId)) :
    ∀ c ∈ l, ∀ c' ∈ l, c'.caseId = c.caseId → c' = c := by
  induction hp with
  | nil => intro c hc; cases hc
  | @cons x xs hx hxs ih =>
    intro c hc c' hc' heq
    rcases List.mem_cons.mp hc with hce | hc
    · rcases List.mem_cons.mp hc' with hce' | hc'
      · rw [hce, hce']
      · rw [hce] at heq
        exact absurd heq.symm (hx c' hc')
    · rcases List.mem_cons.mp hc' with hce' | hc'
      · rw [hce'] at heq
        exact absurd heq (hx c hc)
      · exact ih c hc c' hc' heq

/-- C4: in every reachable database state, the email threads of distinct rows
have pairwise distinct `case_id`s (a case never has two outreach threads), and
every thread references exactly one existing case. -/
theorem c4_thread_case_one_to_one (db : DB) (h : Reachable db) :
    db.emailThreads.Pairwise (fun t1 t2 => t1.caseId ≠ t2.caseId)
    ∧ ∀ t ∈ db.emailThreads, ∃ c ∈ db.cases, c.caseId = t.caseId
        ∧ ∀ c' ∈ db.cases, c'.caseId = t.caseId → c' = c := by
  obtain ⟨hp1, hp2, hfk⟩ := threadInv_reachable h
  refine ⟨hp1, ?_⟩
  intro t ht
  obtain ⟨c, hc, hceq⟩ := hfk t ht
  refine ⟨c, hc, hceq, ?_⟩
  intro c' hc' hceq'
  exact pairwise_caseId_injOn hp2 c hc c' hc' (hceq'.trans hceq.symm)

/-- Witness for C4: a concrete reachable state with one vanpool, one case and
its single thread, built by constraint-respecting inserts from the empty
database. -/
theorem c4_thread_case_one_to_one_witness :
    (DB.mk [] [⟨"VP-101", "active"⟩] []
        [⟨"CASE-001", "VP-101", CaseStatus.pending_reply, "\x7b\x7d", none, 0⟩]
        [⟨"THREAD-001", "CASE-001", "VP-101", "subject", "active"⟩]
        []).emailThreads.Pairwise (fun t1 t2 => t1.caseId ≠ t2.caseId)
    ∧ ∀ t ∈ (DB.mk [] [⟨"VP-101", "active"⟩] []
        [⟨"CASE-001", "VP-101", CaseStatus.pending_reply, "\x7b\x7d", none, 0⟩]
        [⟨"THREAD-001", "CASE-001", "VP-101", "subject", "active"⟩]
        []).emailThreads,
      ∃ c ∈ (DB.mk [] [⟨"VP-101", "active"⟩] []
          [⟨"CASE-001", "VP-101", CaseStatus.pending_reply, "\x7b\x7d", none, 0⟩]
          [⟨"THREAD-001", "CASE-001", "VP-101", "subject", "active"⟩]
          []).cases, c.caseId = t.caseId
        ∧ ∀ c' ∈ (DB.mk [] [⟨"VP-101", "active"⟩] []
            [⟨"CASE-001", "VP-101", CaseStatus.pending_reply, "\x7b\x7d", none, 0⟩]
            [⟨"THREAD-001", "CASE-001", "VP-101", "subject", "active"⟩]
            []).cases, c'.caseId = t.caseId → c' = c :=
  c4_thread_case_one_to_one
    (DB.mk [] [⟨"VP-101", "active"⟩] []
      [⟨"CASE-001", "VP-101", CaseStatus.pending_reply, "\x7b\x7d", none, 0⟩]
      [⟨"THREAD-001", "CASE-001", "VP-101", "subject", "active"⟩] [])
    (@Reachable.insertEmailThread
      (DB.mk [] [⟨"VP-101", "active"⟩] []
        [⟨"CASE-001", "VP-101", CaseStatus.pending_reply, "\x7b\x7d", none, 0⟩] [] [])
      (DB.mk [] [⟨"VP-101", "active"⟩] []
        [⟨"CASE-001", "VP-101", CaseStatus.pending_reply, "\x7b\x7d", none, 0⟩]
        [⟨"THREAD-001", "CASE-001", "VP-101", "subject", "active"⟩] [])
      ⟨"THREAD-001", "CASE-001", "VP-101", "subject", "active"⟩
      (@Reachable.insertCase
        (DB.mk [] [⟨"VP-101", "active"⟩] [] [] [] [])
        (DB.mk [] [⟨"VP-101", "active"⟩] []
          [⟨"CASE-001", "VP-101", CaseStatus.pending_reply, "\x7b\x7d", none, 0⟩] [] [])
        ⟨"CASE-001", "VP-101", CaseStatus.pending_reply, "\x7b\x7d", none, 0⟩
        (@Reachable.insertVanpool DB.empty
          (DB.mk [] [⟨"VP-101", "active"⟩] [] [] [] [])
          ⟨"VP-101", "active"⟩ Reachable.empty (by decide))
        (by decide))
      (by decide))

/-! ## Message-id generation (claim C9): string lemmas -/

theorem jsSplit_sep_append (sep : Char) (xs ys : List Char) (h : sep ∉ xs) :
    jsSplit sep (xs ++ sep :: ys) = xs :: jsSplit sep ys := by
  induction xs with
  | nil => simp [jsSplit]
  | cons c cs ih =>
    have hc : ¬ c = sep := fun hh => h (by rw [hh]; exact List.mem_cons_self _ _)
    have h' : sep ∉ cs := fun hh => h (List.mem_cons_of_mem _ hh)
    rw [List.cons_append]
    simp only [jsSplit, if_neg hc, ih h']

theorem jsSplit_no_sep (sep : Char) (xs : List Char) (h : sep ∉ xs) :
    jsSplit sep xs = [xs] := by
  induction xs with
  | nil => rfl
  | cons c cs ih =>
    have hc : ¬ c = sep := fun hh => h (by rw [hh]; exact List.mem_cons_self _ _)
    have h' : sep ∉ cs := fun hh => h (List.mem_cons_of_mem _ hh)
    simp only [jsSplit, if_neg hc, ih h']

theorem isDigitChar_facts {c : Char} (h : isDigitChar c = true) :
    c ≠ '-' ∧ c ≠ '+' ∧ c.isWhitespace = false := by
  unfold isDigitChar at h
  rw [Bool.and_eq_true] at h
  obtain ⟨h1, h2⟩ := h
  have h48 : 48 ≤ c.toNat := of_decide_eq_true h1
  refine ⟨?_, ?_, ?_⟩
  · intro he
    rw [he] at h48
    exact absurd h48 (by decide)
  · intro he
    rw [he] at h48
    exact absurd h48 (by decide)
  · cases hw : c.isWhitespace with
    | false => rfl
    | true =>
      exfalso
      unfold Char.isWhitespace at hw
      simp only [Bool.or_eq_true, decide_eq_true_eq] at hw
      rcases hw with ((h | h) | h) | h <;> subst h <;> exact absurd h48 (by decide)

theorem isDigitChar_digitChar48 {d : Nat} (h : d < 10) :
    isDigitChar (digitChar48 d) = true := by
  interval_cases d <;> rfl

theorem digitChar48_toNat {d : Nat} (h : d < 10) : (digitChar48 d).toNat = 48 + d := by
  interval_cases d <;> rfl

theorem natDecCharsAux_digits :
    ∀ fuel n, ∀ c ∈ natDecCharsAux fuel n, isDigitChar c = true := by
  intro fuel
  induction fuel with
  | zero => intro n c hc; cases hc
  | succ fuel ih =>
    intro n c hc
    unfold natDecCharsAux at hc
    split at hc
    next hn =>
      rw [List.mem_singleton] at hc
      rw [hc]
      exact isDigitChar_digitChar48 hn
    next hn =>
      rcases List.mem_append.mp hc with hc | hc
      · exact ih _ c hc
      · rw [List.mem_singleton] at hc
        rw [hc]
        exact isDigitChar_digitChar48 (Nat.mod_lt _ (by norm_num))

theorem natDecChars_digits (n : Nat) : ∀ c ∈ natDecChars n, isDigitChar c = true :=
  natDecCharsAux_digits (n + 1) n

theorem natDecChars_ne_nil (n : Nat) : natDecChars n ≠ [] := by
  unfold natDecChars natDecCharsAux
  split
  · simp
  · intro h
    rcases List.append_eq_nil.mp h with ⟨-, h2⟩
    exact List.cons_ne_nil _ _ h2

theorem natDecCharsAux_foldl :
    ∀ fuel n acc, n < 10 ^ fuel →
    (natDecCharsAux fuel n).foldl (fun a c => 10 * a + (c.toNat - 48)) acc
      = acc * 10 ^ (natDecCharsAux fuel n).length + n := by
  intro fuel
  induction fuel with
  | zero =>
    intro n acc h
    simp only [pow_zero, Nat.lt_one_iff] at h
    subst h
    simp [natDecCharsAux]
  | succ fuel ih =>
    intro n acc h
    unfold natDecCharsAux
    split
    next hn =>
      simp only [List.foldl_cons, List.foldl_nil, List.length_singleton, pow_one,
        digitChar48_toNat hn]
      omega
    next hn =>
      rw [List.foldl_append]
      have hdiv : n / 10 < 10 ^ fuel := by
        rw [Nat.div_lt_iff_lt_mul (by norm_num)]
        rw [← pow_succ]
        exact h
      rw [ih (n / 10) acc hdiv]
      simp only [List.foldl_cons, List.foldl_nil, List.length_append,
        List.length_singleton, digitChar48_toNat (Nat.mod_lt n (by norm_num))]
      rw [pow_succ, ← mul_assoc]
      have hdm := Nat.div_add_mod n 10
      set K := acc * 10 ^ (natDecCharsAux fuel (n / 10)).length with hK
      omega

theorem natDecChars_foldl (n acc : Nat) :
    (natDecChars n).foldl (fun a c => 10 * a + (c.toNat - 48)) acc
      = acc * 10 ^ (natDecChars n).length + n := by
  apply natDecCharsAux_foldl
  calc n < 10 ^ n := Nat.lt_pow_self (by norm_num) n
    _ ≤ 10 ^ (n + 1) := Nat.pow_le_pow_right (by norm_num) (Nat.le_succ n)

theorem parseNatAcc_digits (l : List Char) :
    ∀ acc, (∀ c ∈ l, isDigitChar c = true) →
    parseNatAcc acc l = l.foldl (fun a c => 10 * a + (c.toNat - 48)) acc := by
  induction l with
  | nil => intro acc _; rfl
  | cons c cs ih =>
    intro acc h
    simp only [parseNatAcc, List.foldl_cons]
    rw [if_pos (h c (List.mem_cons_self _ _))]
    exact ih _ (fun x hx => h x (List.mem_cons_of_mem _ hx))

theorem foldl_replicate_zeros (k : Nat) (l : List Char) :
    (List.replicate k '0' ++ l).foldl (fun a c => 10 * a + (c.toNat - 48)) 0
      = l.foldl (fun a c => 10 * a + (c.toNat - 48)) 0 := by
  induction k with
  | zero => rfl
  | succ k ih =>
    rw [List.replicate_succ, List.cons_append, List.foldl_cons]
    exact ih

theorem pad_digits (k n : Nat) :
    ∀ c ∈ List.replicate k '0' ++ natDecChars n, isDigitChar c = true := by
  intro c hc
  rcases List.mem_append.mp hc with hc | hc
  · rw [List.eq_of_mem_replicate hc]
    rfl
  · exact natDecChars_digits n c hc

theorem parseNatDigits_pad (k n : Nat) :
    parseNatDigits (List.replicate k '0' ++ natDecChars n) = some n := by
  have hdg := pad_digits k n
  cases hl : List.replicate k '0' ++ natDecChars n with
  | nil =>
    exfalso
    rcases List.append_eq_nil.mp hl with ⟨-, h2⟩
    exact natDecChars_ne_nil n h2
  | cons c cs =>
    rw [hl] at hdg
    simp only [parseNatDigits]
    rw [if_pos (hdg c (List.mem_cons_self _ _))]
    congr 1
    rw [parseNatAcc_digits cs _ (fun x hx => hdg x (List.mem_cons_of_mem _ hx))]
    have h1 : (c :: cs).foldl (fun a c => 10 * a + (c.toNat - 48)) 0
        = cs.foldl (fun a c => 10 * a + (c.toNat - 48)) (c.toNat - 48) := by
      rw [List.foldl_cons]
      norm_num
    have h2 : (c :: cs).foldl (fun a c => 10 * a + (c.toNat - 48)) 0 = n := by
      rw [← hl, foldl_replicate_zeros, natDecChars_foldl]
      ring
    rw [← h1, h2]

theorem jsParseInt_pad (k n : Nat) :
    jsParseInt (List.replicate k '0' ++ natDecChars n) = some (n : Int) := by
  have hdg := pad_digits k n
  cases hl : List.replicate k '0' ++ natDecChars n with
  | nil =>
    exfalso
    rcases List.append_eq_nil.mp hl with ⟨-, h2⟩
    exact natDecChars_ne_nil n h2
  | cons c cs =>
    rw [hl] at hdg
    have hc := hdg c (List.mem_cons_self _ _)
    obtain ⟨hne1, hne2, hws⟩ := isDigitChar_facts hc
    unfold jsParseInt
    rw [List.dropWhile_cons, hws]
    simp only [Bool.false_eq_true, if_false]
    split
    next heq =>
      injection heq with heq1 heq2
      exact absurd heq1 hne1
    next heq =>
      injection heq with heq1 heq2
      exact absurd heq1 hne2
    next =>
      rw [← hl, parseNatDigits_pad]
      rfl

theorem le_foldl_msgNumStep (ids : List String) :
    ∀ acc : Int, acc ≤ ids.foldl msgNumStep acc := by
  induction ids with
  | nil => intro acc; exact le_refl acc
  | cons x xs ih =>
    intro acc
    refine le_trans ?_ (ih (msgNumStep acc x))
    unfold msgNumStep
    cases msgNumOf x with
    | none => exact le_refl acc
    | some num =>
      dsimp only
      split
      next h => exact le_of_lt h
      next => exact le_refl acc

theorem mem_le_foldl_msgNumStep {ids : List String} {id : String} {v : Int}
    (hmem : id ∈ ids) (hv : msgNumOf id = some v) :
    ∀ acc : Int, v ≤ ids.foldl msgNumStep acc := by
  induction ids with
  | nil => cases hmem
  | cons x xs ih =>
    intro acc
    rcases List.mem_cons.mp hmem with hxe | hmem
    · refine le_trans ?_ (le_foldl_msgNumStep xs (msgNumStep acc x))
      unfold msgNumStep
      rw [← hxe, hv]
      dsimp only
      split
      next => exact le_refl v
      next h => exact le_of_not_lt h
    · exact ih hmem (msgNumStep acc x)

theorem maxMsgNum_nonneg (ids : List String) : 0 ≤ maxMsgNum ids :=
  le_foldl_msgNumStep ids 0

theorem maxMsgNum_ge {ids : List String} {id : String} {v : Int}
    (hmem : id ∈ ids) (hv : msgNumOf id = some v) : v ≤ maxMsgNum ids :=
  mem_le_foldl_msgNumStep hmem hv 0

theorem pad_of_next_no_hyphen (ids : List String) :
    ('-' : Char) ∉ padStart3Zeros (intDecChars (maxMsgNum ids + 1)) := by
  intro hmem
  have hpos : ¬ (maxMsgNum ids + 1 < 0) := by
    have := maxMsgNum_nonneg ids
    omega
  unfold intDecChars at hmem
  rw [if_neg hpos] at hmem
  unfold padStart3Zeros at hmem
  rcases List.mem_append.mp hmem with hc | hc
  · exact absurd (List.eq_of_mem_replicate hc) (by decide)
  · have := natDecChars_digits (maxMsgNum ids + 1).natAbs _ hc
    exact absurd this (by decide)

theorem msgNumOf_genMessageId (threadId : String) (ids : List String)
    (h : ('-' : Char) ∉ (jsReplaceFirst threadId "THREAD-").toList) :
    msgNumOf (genMessageId threadId ids) = some (maxMsgNum ids + 1) := by
  unfold msgNumOf genMessageId
  have hsplit :
      jsSplit '-' (String.mk
          (('M' :: 'S' :: 'G' :: '-' :: (jsReplaceFirst threadId "THREAD-").toList)
            ++ '-' :: padStart3Zeros (intDecChars (maxMsgNum ids + 1)))).toList
        = [['M', 'S', 'G'], (jsReplaceFirst threadId "THREAD-").toList,
           padStart3Zeros (intDecChars (maxMsgNum ids + 1))] := by
    have hlist : (String.mk
        (('M' :: 'S' :: 'G' :: '-' :: (jsReplaceFirst threadId "THREAD-").toList)
          ++ '-' :: padStart3Zeros (intDecChars (maxMsgNum ids + 1)))).toList
        = ['M', 'S', 'G'] ++ '-' ::
            ((jsReplaceFirst threadId "THREAD-").toList
              ++ '-' :: padStart3Zeros (intDecChars (maxMsgNum ids + 1))) := by
      simp [String.toList]
    rw [hlist]
    rw [jsSplit_sep_append '-' ['M', 'S', 'G'] _ (by decide)]
    rw [jsSplit_sep_append '-' _ _ h]
    rw [jsSplit_no_sep '-' _ (pad_of_next_no_hyphen ids)]
  rw [hsplit]
  norm_num
  have hpos : ¬ (maxMsgNum ids + 1 < 0) := by
    have := maxMsgNum_nonneg ids
    omega
  unfold intDecChars
  rw [if_neg hpos]
  unfold padStart3Zeros
  rw [jsParseInt_pad]
  rw [Int.natAbs_of_nonneg (by have := maxMsgNum_nonneg ids; omega)]

/-- C9 amended: for a thread whose numeric part (the thread id after removing
the first `THREAD-`) contains no hyphen, the generated message id parses back
to `maxMsgNum + 1`, which is strictly greater than the parsed numeric
component of every parseable existing message id of the thread, and hence the
generated id differs from every existing message id of the thread. -/
theorem c9_generated_id_fresh (threadId : String) (ids : List String)
    (h : ('-' : Char) ∉ (jsReplaceFirst threadId "THREAD-").toList) :
    (∀ id ∈ ids, ∀ v : Int, msgNumOf id = some v → v < maxMsgNum ids + 1)
    ∧ msgNumOf (genMessageId threadId ids) = some (maxMsgNum ids + 1)
    ∧ ∀ id ∈ ids, genMessageId threadId ids ≠ id := by
  have hbound : ∀ id ∈ ids, ∀ v : Int, msgNumOf id = some v → v < maxMsgNum ids + 1 := by
    intro id hid v hv
    have := maxMsgNum_ge hid hv
    omega
  refine ⟨hbound, msgNumOf_genMessageId threadId ids h, ?_⟩
  intro id hid heq
  have hgen := msgNumOf_genMessageId threadId ids h
  rw [heq] at hgen
  have := hbound id hid (maxMsgNum ids + 1) hgen
  omega

/-- Witness for C9's amended statement: thread `THREAD-001` with one existing
message `MSG-001-001`. -/
theorem c9_generated_id_fresh_witness :
    (∀ id ∈ ["MSG-001-001"], ∀ v : Int,
        msgNumOf id = some v → v < maxMsgNum ["MSG-001-001"] + 1)
    ∧ msgNumOf (genMessageId "THREAD-001" ["MSG-001-001"])
        = some (maxMsgNum ["MSG-001-001"] + 1)
    ∧ ∀ id ∈ ["MSG-001-001"], genMessageId "THREAD-001" ["MSG-001-001"] ≠ id :=
  c9_generated_id_fresh "THREAD-001" ["MSG-001-001"] (by decide)

/-- C9 fails as stated for thread ids whose numeric part contains a hyphen:
for thread `THREAD-A-B` with the existing message `MSG-A-B-001`, the id
generator produces `MSG-A-B-001` again — equal to an existing message id of
the thread — and the subsequent create fails on the `messages_message_id_key`
unique index. -/
theorem c9_generated_id_collision_counterexample :
    genMessageId "THREAD-A-B" ["MSG-A-B-001"] = "MSG-A-B-001"
    ∧ "MSG-A-B-001" ∈ ["MSG-A-B-001"]
    ∧ (addMessage
        (DB.mk [⟨"EMP-1001", "a@x.com"⟩] [⟨"VP-101", "active"⟩]
          [⟨"P-2001", "VP-101", "EMP-1001"⟩]
          [⟨"CASE-001", "VP-101", CaseStatus.pending_reply, "\x7b\x7d", none, 0⟩]
          [⟨"THREAD-A-B", "CASE-001", "VP-101", "subject", "active"⟩]
          [⟨"MSG-A-B-001", "THREAD-A-B", "pp@i.com", ["a@x.com"], 0, "hello",
            Direction.outbound, none, none, "sent"⟩])
        ⟨"THREAD-A-B", "a@x.com", "hi", Direction.inbound⟩ 7).1.success = false := by
  refine ⟨by decide, by decide, by decide⟩

end PoolPatrol
